import Mathlib

/-!
Shallow embedding of the macronade-circus2 PySide6 port engine
(`models.py`, `timeline_service.py`): the scene/timeline data model,
the interpolation engine, the keyframe navigator, and the JSON
serialization boundary.  Python floats are modelled as rationals,
Python dicts as association lists with the dict construction
(last write wins) made explicit.
-/

/-- `Attachment` dataclass from `models.py`. -/
structure Attachment where
  pantin_id : ℤ
  member_id : String
  offset_x : ℚ
  offset_y : ℚ
deriving DecidableEq

/-- `SceneItem` dataclass from `models.py`. -/
structure SceneItem where
  item_id : ℤ
  kind : String
  label : String
  asset_path : String
  x : ℚ
  y : ℚ
  scale : ℚ
  rotation : ℚ
  width : ℚ
  height : ℚ
  variants : List (String × String)
  member_rotations : List (String × ℚ)
  attachment : Option Attachment
deriving DecidableEq

/-- `SceneSnapshot` dataclass from `models.py`. -/
structure SceneSnapshot where
  background_path : Option String
  background_size : Option (ℤ × ℤ)
  items : List SceneItem
deriving DecidableEq

/-- `Layer` dataclass from `models.py`. -/
structure Layer where
  layer_id : ℤ
  name : String
  visible : Bool
  locked : Bool
  kind : String
deriving DecidableEq

/-- `KeyframeSnapshot` dataclass from `models.py`. -/
structure KeyframeSnapshot where
  scene : SceneSnapshot
  layers : List Layer
  active_layer_id : Option ℤ
deriving DecidableEq

/-- `Timeline` dataclass from `models.py`.  The Python `keyframe_states`
dict is modelled as an association list; lookups use the first match,
which agrees with the dict on any list with no duplicated keys (the only
lists the Python code ever builds). -/
structure Timeline where
  fps : ℤ
  start_frame : ℤ
  end_frame : ℤ
  current_frame : ℤ
  keyframes : List ℤ
  keyframe_states : List (ℤ × KeyframeSnapshot)
  loop_enabled : Bool
deriving DecidableEq

/-- `Project` dataclass from `models.py`. -/
structure Project where
  version : ℤ
  timeline : Timeline
deriving DecidableEq

/-- Python dict insertion: replace the value in place when the key is
already present, append otherwise. -/
def dictInsert {α β : Type} [BEq α] (l : List (α × β)) (k : α) (v : β) :
    List (α × β) :=
  if l.any (fun p => p.1 == k) then
    l.map (fun p => if p.1 == k then (k, v) else p)
  else
    l ++ [(k, v)]

/-- Build a Python dict from a list of entries (later entries overwrite
earlier ones, first-insertion order is kept). -/
def listToDict {α β : Type} [BEq α] (entries : List (α × β)) : List (α × β) :=
  entries.foldl (fun acc p => dictInsert acc p.1 p.2) []

/-- `_lerp` from `timeline_service.py`. -/
def _lerp (start : ℚ) (stop : ℚ) (t : ℚ) : ℚ :=
  start + (stop - start) * t

/-- Python `%` with a positive real modulus (result in `[0, 360)`),
as used by `_lerp_angle`. -/
def fmod360 (q : ℚ) : ℚ :=
  q - 360 * ⌊q / 360⌋

/-- The `delta` computed inside `_lerp_angle`:
`(((end - start) % 360.0) + 540.0) % 360.0 - 180.0`. -/
def lerpAngleDelta (start : ℚ) (stop : ℚ) : ℚ :=
  fmod360 (fmod360 (stop - start) + 540) - 180

/-- `_lerp_angle` from `timeline_service.py`. -/
def _lerp_angle (start : ℚ) (stop : ℚ) (t : ℚ) : ℚ :=
  start + lerpAngleDelta start stop * t

/-- `_interpolate_item` from `timeline_service.py`: `dataclasses.replace`
keeping every field but `x`, `y`, `scale`, `rotation`. -/
def _interpolate_item (base : SceneItem) (other : SceneItem) (t : ℚ) :
    SceneItem :=
  { base with
    x := _lerp base.x other.x t
    y := _lerp base.y other.y t
    scale := _lerp base.scale other.scale t
    rotation := _lerp_angle base.rotation other.rotation t }

/-- `interpolate_snapshot` from `timeline_service.py`.  `other_map` is the
dict comprehension over `nxt.scene.items`; `replace(item)` and
`replace(layer)` are value-identical copies. -/
def interpolate_snapshot (prev : KeyframeSnapshot) (nxt : KeyframeSnapshot)
    (t : ℚ) : KeyframeSnapshot :=
  let other_map := listToDict (nxt.scene.items.map (fun it => (it.item_id, it)))
  { scene :=
      { background_path := prev.scene.background_path
        background_size := prev.scene.background_size
        items := prev.scene.items.map (fun it =>
          match List.lookup it.item_id other_map with
          | some o => _interpolate_item it o t
          | none => it) }
    layers := prev.layers
    active_layer_id := prev.active_layer_id }

/-- Errors the engine and loader can raise (Python exceptions). -/
inductive PyErr where
  | keyErr
  | idxErr
  | typeErr
  | valueErr
deriving DecidableEq

/-- `sorted(set(timeline.keyframes))` from `snapshot_at_frame`. -/
def dedupSort (l : List ℤ) : List ℤ :=
  List.insertionSort (· ≤ ·) l.dedup

/-- `snapshot_at_frame` from `timeline_service.py`.  Python raises
`KeyError` on a missing dict entry and `IndexError` on `keyframes[0]`
of an empty list; both are modelled with `Except.error`. -/
def snapshot_at_frame (timeline : Timeline) (frame : ℤ) :
    Except PyErr (Option KeyframeSnapshot) :=
  if timeline.keyframe_states.isEmpty then
    .ok none
  else
    match List.lookup frame timeline.keyframe_states with
    | some s => .ok (some s)
    | none =>
      let keyframes := dedupSort timeline.keyframes
      let «before» := keyframes.filter (fun k => k < frame)
      let «after» := keyframes.filter (fun k => frame < k)
      if «before».isEmpty then
        match keyframes.head? with
        | none => .error .idxErr
        | some k =>
          match List.lookup k timeline.keyframe_states with
          | some s => .ok (some s)
          | none => .error .keyErr
      else if «after».isEmpty then
        match keyframes.getLast? with
        | none => .error .idxErr
        | some k =>
          match List.lookup k timeline.keyframe_states with
          | some s => .ok (some s)
          | none => .error .keyErr
      else
        match «before».getLast?, «after».head? with
        | some prev_frame, some next_frame =>
          match List.lookup prev_frame timeline.keyframe_states,
                List.lookup next_frame timeline.keyframe_states with
          | some prev_snapshot, some next_snapshot =>
            .ok (some (interpolate_snapshot prev_snapshot next_snapshot
              (((frame : ℚ) - (prev_frame : ℚ)) /
                ((next_frame : ℚ) - (prev_frame : ℚ)))))
          | _, _ => .error .keyErr
        | _, _ => .error .idxErr

/-- `jump_prev_keyframe` from `timeline_service.py`: `prev[-1]` of the
filtered (unsorted) list, or `frame` when the filter is empty. -/
def jump_prev_keyframe (timeline : Timeline) (frame : ℤ) : ℤ :=
  ((timeline.keyframes.filter (fun k => k < frame)).getLast?).getD frame

/-- `jump_next_keyframe` from `timeline_service.py`: `nxt[0]` of the
filtered (unsorted) list, or `frame` when the filter is empty. -/
def jump_next_keyframe (timeline : Timeline) (frame : ℤ) : ℤ :=
  ((timeline.keyframes.filter (fun k => frame < k)).head?).getD frame

/-- JSON values as produced by `json.load` (numbers collapsed to one
numeric type, as Python `==` compares ints and floats numerically). -/
inductive Json where
  | null
  | bool (b : Bool)
  | num (q : ℚ)
  | str (s : String)
  | arr (elems : List Json)
  | obj (fields : List (String × Json))

/-- JSON field names used by `models.py`. -/
def kVersion : String := "version"

def kTimeline : String := "timeline"

def kFps : String := "fps"

def kStartFrame : String := "startFrame"

def kEndFrame : String := "endFrame"

def kCurrentFrame : String := "currentFrame"

def kKeyframes : String := "keyframes"

def kKeyframeStates : String := "keyframeStates"

def kLoopEnabled : String := "loopEnabled"

def kScene : String := "scene"

def kLayers : String := "layers"

def kItems : String := "items"

def kActiveLayerId : String := "activeLayerId"

def kBackgroundPath : String := "backgroundPath"

def kBackgroundSize : String := "backgroundSize"

def kWidth : String := "width"

def kHeight : String := "height"

def kId : String := "id"

def kKind : String := "kind"

def kLabel : String := "label"

def kAssetPath : String := "assetPath"

def kX : String := "x"

def kY : String := "y"

def kScale : String := "scale"

def kRotation : String := "rotation"

def kName : String := "name"

def kVisible : String := "visible"

def kLocked : String := "locked"

def kVariants : String := "variants"

def kMemberRotations : String := "memberRotations"

def kAttachment : String := "attachment"

def kPantinId : String := "pantinId"

def kMemberId : String := "memberId"

def kOffsetX : String := "offsetX"

def kOffsetY : String := "offsetY"

/-- `dict.get` on a JSON object (last duplicate wins, as in `json.load`). -/
def jGet (l : List (String × Json)) (k : String) : Option Json :=
  match l with
  | [] => none
  | p :: rest =>
    match jGet rest k with
    | some v => some v
    | none => if p.1 == k then some p.2 else none

/-- `dict[k]`: raises `KeyError` when the key is absent. -/
def jReq (l : List (String × Json)) (k : String) : Except PyErr Json :=
  match jGet l k with
  | some v => .ok v
  | none => .error .keyErr

/-- Subscripting or `.items()` on something that must be a dict. -/
def asObj : Json → Except PyErr (List (String × Json))
  | .obj l => .ok l
  | _ => .error .typeErr

/-- Decimal digits of a natural number, most significant first (the
fuel always suffices since n shrinks by a factor 10 each step). -/
def natDigitsAux : Nat → Nat → List Char
  | 0, _ => []
  | fuel + 1, n =>
    if n = 0 then []
    else natDigitsAux fuel (n / 10) ++ [Char.ofNat (48 + n % 10)]

/-- Python `str` of a natural number. -/
def natToStr (n : Nat) : String :=
  if n = 0 then "0" else String.mk (natDigitsAux (n + 1) n)

/-- Python `str` of an integer (decimal, with a leading minus sign). -/
def intToStr (i : ℤ) : String :=
  match i with
  | .ofNat n => natToStr n
  | .negSucc n => "-" ++ natToStr (n + 1)

/-- The value of a decimal digit character. -/
def digitVal (c : Char) : Option Nat :=
  if 48 ≤ c.toNat ∧ c.toNat ≤ 57 then some (c.toNat - 48) else none

/-- Accumulating decimal parser over characters. -/
def parseNatChars : List Char → Option Nat → Option Nat
  | [], acc => acc
  | c :: rest, acc =>
    match digitVal c, acc with
    | some d, some a => parseNatChars rest (some (a * 10 + d))
    | some d, none => parseNatChars rest (some d)
    | none, _ => none

/-- Python `int` applied to a string: canonical decimal integers parse,
anything else raises `ValueError` (leading whitespace, a plus sign and
underscores, which Python also accepts, are outside the modelled
canonical domain). -/
def pyIntOfString (s : String) : Option ℤ :=
  match s.data with
  | '-' :: rest => (parseNatChars rest none).map (fun n => -(n : ℤ))
  | l => (parseNatChars l none).map (fun n => (n : ℤ))

/-- Python truthiness of a JSON-derived value. -/
def pyTruthy : Json → Bool
  | .null => false
  | .bool b => b
  | .num q => q != 0
  | .str s => s != ""
  | .arr l => !l.isEmpty
  | .obj l => !l.isEmpty

/-- Python `int()` truncates toward zero. -/
def ratTrunc (q : ℚ) : ℤ :=
  if 0 ≤ q then ⌊q⌋ else ⌈q⌉

/-- Python `int(v)` on a JSON-derived value (decimal strings parse,
bools coerce, other types raise). -/
def pyInt : Json → Except PyErr ℤ
  | .num q => .ok (ratTrunc q)
  | .bool b => .ok (if b then 1 else 0)
  | .str s =>
    match pyIntOfString s with
    | some i => .ok i
    | none => .error .valueErr
  | _ => .error .typeErr

/-- Python `float(v)` on a JSON-derived value.  Fractional numeric
strings are not modelled (no well-formed project contains them). -/
def pyFloat : Json → Except PyErr ℚ
  | .num q => .ok q
  | .bool b => .ok (if b then 1 else 0)
  | .str s =>
    match pyIntOfString s with
    | some i => .ok (i : ℚ)
    | none => .error .valueErr
  | _ => .error .typeErr

/-- Python `str(v)` on a JSON-derived value; `repr` of containers and of
non-integer numbers is approximated (never reached on well-formed data). -/
def pyStr : Json → String
  | .str s => s
  | .num q => if q.den == 1 then toString q.num else toString q
  | .bool b => if b then "True" else "False"
  | .null => "None"
  | .arr _ => "list"
  | .obj _ => "dict"

/-- `Attachment` part of `SceneItem.from_dict`. -/
def Attachment.fromDict (v : Json) : Except PyErr Attachment := do
  let a ← asObj v
  let pid ← jReq a kPantinId >>= pyInt
  let mid := pyStr (← jReq a kMemberId)
  let ox ← jReq a kOffsetX >>= pyFloat
  let oy ← jReq a kOffsetY >>= pyFloat
  pure { pantin_id := pid, member_id := mid, offset_x := ox, offset_y := oy }

/-- The `attachment` step of `SceneItem.from_dict`: `raw.get("attachment")`
is parsed only when truthy. -/
def parseAttachment (o : Option Json) : Except PyErr (Option Attachment) :=
  match o with
  | none => pure none
  | some v =>
    if pyTruthy v then do
      pure (some (← Attachment.fromDict v))
    else
      pure none

/-- The `variants` dict comprehension of `SceneItem.from_dict`. -/
def parseVariants (o : Option Json) :
    Except PyErr (List (String × String)) :=
  match o with
  | none => pure []
  | some v => do
    let l ← asObj v
    pure (listToDict (l.map (fun p => (p.1, pyStr p.2))))

/-- One entry of the `memberRotations` dict comprehension. -/
def parseMemberRotation (p : String × Json) :
    Except PyErr (String × ℚ) := do
  let f ← pyFloat p.2
  pure (p.1, f)

/-- The `memberRotations` dict comprehension of `SceneItem.from_dict`. -/
def parseMemberRotations (o : Option Json) :
    Except PyErr (List (String × ℚ)) :=
  match o with
  | none => pure []
  | some v => do
    let l ← asObj v
    let entries ← l.mapM parseMemberRotation
    pure (listToDict entries)

/-- `SceneItem.from_dict` from `models.py`. -/
def SceneItem.fromDict (j : Json) : Except PyErr SceneItem := do
  let raw ← asObj j
  let attachment ← parseAttachment (jGet raw kAttachment)
  let idv ← jReq raw kId >>= pyInt
  let kind := pyStr (← jReq raw kKind)
  let label := pyStr (← jReq raw kLabel)
  let asset := pyStr (← jReq raw kAssetPath)
  let xv ← jReq raw kX >>= pyFloat
  let yv ← jReq raw kY >>= pyFloat
  let sv ← jReq raw kScale >>= pyFloat
  let rv ← jReq raw kRotation >>= pyFloat
  let wv ← jReq raw kWidth >>= pyFloat
  let hv ← jReq raw kHeight >>= pyFloat
  let variants ← parseVariants (jGet raw kVariants)
  let member_rotations ← parseMemberRotations (jGet raw kMemberRotations)
  pure
    { item_id := idv, kind := kind, label := label, asset_path := asset,
      x := xv, y := yv, scale := sv, rotation := rv, width := wv, height := hv,
      variants := variants, member_rotations := member_rotations,
      attachment := attachment }

/-- Optional string field stored without coercion (`raw.get(...)`);
non-string, non-null values are outside the modelled domain. -/
def optStr : Option Json → Except PyErr (Option String)
  | none => .ok none
  | some .null => .ok none
  | some (.str s) => .ok (some s)
  | some _ => .error .typeErr

/-- Optional integer field stored without coercion (`raw.get(...)`);
non-integer, non-null values are outside the modelled domain. -/
def optInt : Option Json → Except PyErr (Option ℤ)
  | none => .ok none
  | some .null => .ok none
  | some (.num q) => if q.den = 1 then .ok (some q.num) else .error .typeErr
  | some _ => .error .typeErr

/-- The `backgroundSize` step of `SceneSnapshot.from_dict`. -/
def parseBackgroundSize (o : Option Json) :
    Except PyErr (Option (ℤ × ℤ)) :=
  match o with
  | none => pure none
  | some v =>
    if pyTruthy v then do
      let l ← asObj v
      let w ← jReq l kWidth >>= pyInt
      let h ← jReq l kHeight >>= pyInt
      pure (some (w, h))
    else
      pure none

/-- The `items` list comprehension of `SceneSnapshot.from_dict`
(`raw.get("items", [])`). -/
def parseItems (o : Option Json) : Except PyErr (List SceneItem) :=
  match o with
  | none => pure []
  | some (.arr l) => l.mapM SceneItem.fromDict
  | some _ => .error .typeErr

/-- `SceneSnapshot.from_dict` from `models.py`. -/
def SceneSnapshot.fromDict (j : Json) : Except PyErr SceneSnapshot := do
  let raw ← asObj j
  let background_size ← parseBackgroundSize (jGet raw kBackgroundSize)
  let background_path ← optStr (jGet raw kBackgroundPath)
  let items ← parseItems (jGet raw kItems)
  pure
    { background_path := background_path, background_size := background_size,
      items := items }

/-- `Layer.from_dict` from `models.py`. -/
def Layer.fromDict (j : Json) : Except PyErr Layer := do
  let raw ← asObj j
  let idv ← jReq raw kId >>= pyInt
  let name := pyStr (← jReq raw kName)
  let visible := pyTruthy (← jReq raw kVisible)
  let locked := pyTruthy (← jReq raw kLocked)
  let kind := pyStr (← jReq raw kKind)
  pure
    { layer_id := idv, name := name, visible := visible, locked := locked,
      kind := kind }

/-- The `layers_raw = raw.get("layers", {})` step of
`KeyframeSnapshot.from_dict`. -/
def parseLayersRaw (o : Option Json) :
    Except PyErr (List (String × Json)) :=
  match o with
  | none => pure []
  | some v => asObj v

/-- The layer list comprehension of `KeyframeSnapshot.from_dict`
(`layers_raw.get("items", [])`). -/
def parseLayers (o : Option Json) : Except PyErr (List Layer) :=
  match o with
  | none => pure []
  | some (.arr l) => l.mapM Layer.fromDict
  | some _ => .error .typeErr

/-- `KeyframeSnapshot.from_dict` from `models.py`. -/
def KeyframeSnapshot.fromDict (j : Json) : Except PyErr KeyframeSnapshot := do
  let raw ← asObj j
  let layers_raw ← parseLayersRaw (jGet raw kLayers)
  let scene ← SceneSnapshot.fromDict ((jGet raw kScene).getD (.obj []))
  let layers ← parseLayers (jGet layers_raw kItems)
  let active ← optInt (jGet layers_raw kActiveLayerId)
  pure { scene := scene, layers := layers, active_layer_id := active }

/-- One entry of the `keyframeStates` dict comprehension of
`Project.from_dict`: `int(frame)` on the serialized key string and
`KeyframeSnapshot.from_dict` on the value. -/
def parseStateEntry (p : String × Json) :
    Except PyErr (ℤ × KeyframeSnapshot) := do
  let f ←
    match pyIntOfString p.1 with
    | some i => pure i
    | none => Except.error PyErr.valueErr
  let s ← KeyframeSnapshot.fromDict p.2
  pure (f, s)

/-- The `keyframeStates` dict comprehension of `Project.from_dict`
(`timeline_raw.get("keyframeStates", {})`). -/
def parseStates (o : Option Json) :
    Except PyErr (List (ℤ × KeyframeSnapshot)) :=
  match o with
  | none => pure []
  | some v => do
    let l ← asObj v
    l.mapM parseStateEntry

/-- The `keyframes` list comprehension of `Project.from_dict`
(`timeline_raw.get("keyframes", [])`). -/
def parseKeyframes (o : Option Json) : Except PyErr (List ℤ) :=
  match o with
  | none => pure []
  | some (.arr l) => l.mapM pyInt
  | some _ => .error .typeErr

/-- `Project.from_dict` from `models.py` (evaluation order preserved:
`timeline_raw`, the `keyframeStates` comprehension, then the
constructor arguments). -/
def Project.fromDict (j : Json) : Except PyErr Project := do
  let raw ← asObj j
  let timeline_raw ← jReq raw kTimeline >>= asObj
  let state_entries ← parseStates (jGet timeline_raw kKeyframeStates)
  let keyframe_states := listToDict state_entries
  let version ← pyInt ((jGet raw kVersion).getD (.num 1))
  let fps ← jReq timeline_raw kFps >>= pyInt
  let sf ← jReq timeline_raw kStartFrame >>= pyInt
  let ef ← jReq timeline_raw kEndFrame >>= pyInt
  let cf ← jReq timeline_raw kCurrentFrame >>= pyInt
  let kfs ← parseKeyframes (jGet timeline_raw kKeyframes)
  let loop := pyTruthy ((jGet timeline_raw kLoopEnabled).getD (.bool true))
  pure
    { version := version,
      timeline :=
        { fps := fps, start_frame := sf, end_frame := ef, current_frame := cf,
          keyframes := kfs, keyframe_states := keyframe_states,
          loop_enabled := loop } }

/-- `SceneItem.to_dict` from `models.py`: emits `variants`,
`memberRotations` and `attachment` only when non-empty. -/
def SceneItem.toDict (it : SceneItem) : Json :=
  .obj
    ([(kId, .num (it.item_id : ℚ)), (kKind, .str it.kind),
      (kLabel, .str it.label), (kAssetPath, .str it.asset_path),
      (kX, .num it.x), (kY, .num it.y), (kScale, .num it.scale),
      (kRotation, .num it.rotation), (kWidth, .num it.width),
      (kHeight, .num it.height)] ++
    (if it.variants.isEmpty then []
     else [(kVariants, .obj (it.variants.map (fun p => (p.1, Json.str p.2))))]) ++
    (if it.member_rotations.isEmpty then []
     else [(kMemberRotations,
            .obj (it.member_rotations.map (fun p => (p.1, Json.num p.2))))]) ++
    (match it.attachment with
     | none => []
     | some a =>
       [(kAttachment,
         .obj [(kPantinId, .num (a.pantin_id : ℚ)), (kMemberId, .str a.member_id),
               (kOffsetX, .num a.offset_x), (kOffsetY, .num a.offset_y)])]))

/-- `SceneSnapshot.to_dict` from `models.py`: `backgroundSize` only when
present. -/
def SceneSnapshot.toDict (s : SceneSnapshot) : Json :=
  .obj
    ([(kBackgroundPath,
       match s.background_path with
       | none => Json.null
       | some p => Json.str p),
      (kItems, Json.arr (s.items.map SceneItem.toDict))] ++
    (match s.background_size with
     | none => []
     | some wh =>
       [(kBackgroundSize,
         Json.obj [(kWidth, .num (wh.1 : ℚ)), (kHeight, .num (wh.2 : ℚ))])]))

/-- `Layer.to_dict` from `models.py`. -/
def Layer.toDict (l : Layer) : Json :=
  .obj
    [(kId, .num (l.layer_id : ℚ)), (kName, .str l.name),
     (kVisible, .bool l.visible), (kLocked, .bool l.locked),
     (kKind, .str l.kind)]

/-- `KeyframeSnapshot.to_dict` from `models.py`. -/
def KeyframeSnapshot.toDict (s : KeyframeSnapshot) : Json :=
  .obj
    [(kScene, s.scene.toDict),
     (kLayers,
      .obj [(kItems, Json.arr (s.layers.map Layer.toDict)),
            (kActiveLayerId,
             match s.active_layer_id with
             | none => Json.null
             | some i => Json.num (i : ℚ))])]

/-- `Project.to_dict` from `models.py`: `keyframeStates` keys serialized
as decimal strings, sorted ascending. -/
def Project.toDict (p : Project) : Json :=
  .obj
    [(kVersion, .num (p.version : ℚ)),
     (kTimeline,
      .obj
        [(kFps, .num (p.timeline.fps : ℚ)),
         (kStartFrame, .num (p.timeline.start_frame : ℚ)),
         (kEndFrame, .num (p.timeline.end_frame : ℚ)),
         (kCurrentFrame, .num (p.timeline.current_frame : ℚ)),
         (kKeyframes,
          .arr (p.timeline.keyframes.map (fun (k : ℤ) => Json.num (k : ℚ)))),
         (kKeyframeStates,
          .obj ((List.insertionSort (fun a b => a.1 ≤ b.1)
                   p.timeline.keyframe_states).map
                 (fun p => (intToStr p.1, KeyframeSnapshot.toDict p.2)))),
         (kLoopEnabled, .bool p.timeline.loop_enabled)])]

mutual

/-- Structural size of a JSON value, used as recursion fuel for the
Python equality test. -/
def jsonSize : Json → Nat
  | .null => 1
  | .bool _ => 1
  | .num _ => 1
  | .str _ => 1
  | .arr l => 1 + jsonSizeL l
  | .obj l => 1 + jsonSizeF l

/-- Total size of a list of JSON values. -/
def jsonSizeL : List Json → Nat
  | [] => 0
  | j :: rest => jsonSize j + jsonSizeL rest

/-- Total size of the values of a JSON object. -/
def jsonSizeF : List (String × Json) → Nat
  | [] => 0
  | p :: rest => jsonSize p.2 + jsonSizeF rest

end

/-- Python `==` on JSON-derived values, with explicit fuel: dicts compare
as finite maps (key order irrelevant, duplicates collapsed last-wins),
`True == 1` and `False == 0` hold numerically. -/
def pyEqFuel : Nat → Json → Json → Bool
  | 0, _, _ => false
  | _ + 1, .null, .null => true
  | _ + 1, .bool a, .bool b => a == b
  | _ + 1, .num a, .num b => a == b
  | _ + 1, .bool a, .num b => (if a then (1 : ℚ) else 0) == b
  | _ + 1, .num a, .bool b => a == (if b then (1 : ℚ) else 0)
  | _ + 1, .str a, .str b => a == b
  | n + 1, .arr a, .arr b =>
    a.length == b.length &&
    (a.zip b).all (fun p => pyEqFuel n p.1 p.2)
  | n + 1, .obj a, .obj b =>
    let da := listToDict a
    let db := listToDict b
    da.length == db.length &&
    da.all (fun p =>
      match jGet db p.1 with
      | some w => pyEqFuel n p.2 w
      | none => false)
  | _ + 1, _, _ => false

/-- Python `==` on JSON-derived values (the fuel bounds the nesting
depth, and the structural size always suffices). -/
def pyJsonEq (a : Json) (b : Json) : Bool :=
  pyEqFuel (jsonSize a + jsonSize b) a b

/-- The item of keyframe 0 in the repository test project. -/
def sampleItem0 : SceneItem :=
  { item_id := 1, kind := "objet", label := "Test",
    asset_path := "/objets/wow.svg", x := 10, y := 10, scale := 1,
    rotation := 0, width := 100, height := 60, variants := [],
    member_rotations := [], attachment := none }

/-- The item of keyframe 10 in the repository test project. -/
def sampleItem10 : SceneItem :=
  { sampleItem0 with x := 110, y := 210, scale := 2, rotation := 90 }

/-- The single layer of the repository test project. -/
def sampleLayer : Layer :=
  { layer_id := 1, name := "Test", visible := true, locked := false,
    kind := "item" }

/-- Keyframe snapshot at frame 0 of the repository test project. -/
def sampleSnap0 : KeyframeSnapshot :=
  { scene :=
      { background_path := some "/decors/defaut.png", background_size := none,
        items := [sampleItem0] },
    layers := [sampleLayer], active_layer_id := some 1 }

/-- Keyframe snapshot at frame 10 of the repository test project. -/
def sampleSnap10 : KeyframeSnapshot :=
  { sampleSnap0 with
    scene := { sampleSnap0.scene with items := [sampleItem10] } }

/-- The timeline of the repository test project (keyframes 0 and 10). -/
def sampleTimeline : Timeline :=
  { fps := 24, start_frame := 0, end_frame := 10, current_frame := 5,
    keyframes := [0, 10],
    keyframe_states := [(0, sampleSnap0), (10, sampleSnap10)],
    loop_enabled := true }

/-- The repository test project. -/
def sampleProject : Project :=
  { version := 1, timeline := sampleTimeline }

/-- Timeline with a dangling keyframe 5 (listed in `keyframes`, absent
from `keyframe_states`) strictly bracketed by two stored keyframes. -/
def danglingBracketedTimeline : Timeline :=
  { sampleTimeline with
    keyframes := [0, 5, 10],
    keyframe_states := [(0, sampleSnap0), (10, sampleSnap10)] }

/-- Timeline whose largest keyframe 10 is dangling. -/
def danglingClampTimeline : Timeline :=
  { sampleTimeline with
    keyframes := [0, 10], keyframe_states := [(0, sampleSnap0)] }

/-- Timeline whose stored keyframes list is unsorted. -/
def unsortedTimeline : Timeline :=
  { sampleTimeline with keyframes := [5, 2], keyframe_states := [] }

/-- Timeline fields of a minimal well-typed project JSON (no keyframes). -/
def emptyTimelineJsonFields : List (String × Json) :=
  [(kFps, .num 24), (kStartFrame, .num 0), (kEndFrame, .num 10),
   (kCurrentFrame, .num 5), (kKeyframes, .arr []),
   (kKeyframeStates, .obj []), (kLoopEnabled, .bool true)]

/-- A raw project dictionary with the required `version` field missing. -/
def missingVersionRaw : List (String × Json) :=
  [(kTimeline, .obj emptyTimelineJsonFields)]

/-- The project that `Project.from_dict` builds from the raw dictionary
with the missing `version` (silently defaulted to 1). -/
def emptyKeyframesProject : Project :=
  { version := 1,
    timeline :=
      { fps := 24, start_frame := 0, end_frame := 10, current_frame := 5,
        keyframes := [], keyframe_states := [], loop_enabled := true } }

/-- Timeline fields with the required `fps` field missing. -/
def missingFpsTimelineFields : List (String × Json) :=
  [(kStartFrame, .num 0), (kEndFrame, .num 10), (kCurrentFrame, .num 5),
   (kKeyframes, .arr []), (kKeyframeStates, .obj []),
   (kLoopEnabled, .bool true)]

/-- A raw project dictionary whose timeline has no `fps` entry. -/
def missingFpsRaw : List (String × Json) :=
  [(kVersion, .num 1), (kTimeline, .obj missingFpsTimelineFields)]

/-- Timeline fields with only the directly subscripted required fields:
`keyframes`, `keyframeStates` and `loopEnabled` are all absent. -/
def bareTimelineFields : List (String × Json) :=
  [(kFps, .num 24), (kStartFrame, .num 0), (kEndFrame, .num 10),
   (kCurrentFrame, .num 5)]

/-- A raw project dictionary with `version`, `keyframes`,
`keyframeStates` and `loopEnabled` all absent. -/
def bareRaw : List (String × Json) :=
  [(kTimeline, .obj bareTimelineFields)]

/-- An association list with no duplicated keys (a faithful image of a
Python dict). -/
def NodupKeys {α β : Type} (l : List (α × β)) : Prop :=
  (l.map Prod.fst).Nodup

/-- A scene item whose optional collections are faithful dict images. -/
def ItemWF (it : SceneItem) : Prop :=
  NodupKeys it.variants ∧ NodupKeys it.member_rotations

/-- A keyframe snapshot whose items are all well-formed. -/
def SnapshotWF (s : KeyframeSnapshot) : Prop :=
  ∀ it ∈ s.scene.items, ItemWF it

/-- A project in canonical serialized form: keyframe state keys strictly
sorted (hence a faithful dict image emitted in this very order), every
snapshot well-formed, and every state key a decimal string that parses
back to itself. -/
def ProjectWF (p : Project) : Prop :=
  (p.timeline.keyframe_states.map Prod.fst).Sorted (· < ·) ∧
  (∀ e ∈ p.timeline.keyframe_states, SnapshotWF e.2) ∧
  (∀ e ∈ p.timeline.keyframe_states, pyIntOfString (intToStr e.1) = some e.1)

/-- Timeline fields of a well-formed project JSON that omits the
optional `loopEnabled` field. -/
def noLoopTimelineFields : List (String × Json) :=
  [(kFps, .num 24), (kStartFrame, .num 0), (kEndFrame, .num 10),
   (kCurrentFrame, .num 5), (kKeyframes, .arr []),
   (kKeyframeStates, .obj [])]

/-- A well-formed project JSON omitting `loopEnabled` (allowed by the
schema, which defaults it to true). -/
def noLoopRaw : Json :=
  .obj [(kVersion, .num 1), (kTimeline, .obj noLoopTimelineFields)]

/-! ### Helper lemmas -/

lemma mem_dedupSort {l : List ℤ} {a : ℤ} : a ∈ dedupSort l ↔ a ∈ l := by
  unfold dedupSort
  rw [(List.perm_insertionSort (· ≤ ·) l.dedup).mem_iff]
  exact List.mem_dedup

lemma sorted_dedupSort (l : List ℤ) : (dedupSort l).Sorted (· ≤ ·) :=
  List.sorted_insertionSort (· ≤ ·) l.dedup

lemma nodup_dedupSort (l : List ℤ) : (dedupSort l).Nodup :=
  ((List.perm_insertionSort (· ≤ ·) l.dedup).nodup_iff).mpr (List.nodup_dedup l)

lemma dedupSort_ne_nil {l : List ℤ} (h : l ≠ []) : dedupSort l ≠ [] := by
  obtain ⟨a, ha⟩ := List.exists_mem_of_ne_nil l h
  intro hcontra
  have : a ∈ dedupSort l := mem_dedupSort.mpr ha
  simp [hcontra] at this

lemma sorted_head_le {l : List ℤ} (hs : l.Sorted (· ≤ ·)) {m a : ℤ}
    (hm : l.head? = some m) (ha : a ∈ l) : m ≤ a := by
  cases l with
  | nil => cases hm
  | cons b t =>
    obtain rfl : b = m := by simpa using hm
    rcases List.mem_cons.mp ha with rfl | h
    · exact le_refl a
    · exact List.rel_of_sorted_cons hs a h

lemma sorted_le_getLast {l : List ℤ} (hs : l.Sorted (· ≤ ·)) {m a : ℤ}
    (hm : l.getLast? = some m) (ha : a ∈ l) : a ≤ m := by
  induction l with
  | nil => cases hm
  | cons b t ih =>
    cases t with
    | nil =>
      simp at hm ha
      omega
    | cons c t2 =>
      rw [List.getLast?_cons_cons] at hm
      rcases List.mem_cons.mp ha with rfl | h
      · exact List.rel_of_sorted_cons hs m (List.mem_of_mem_getLast? hm)
      · exact ih hs.of_cons hm h

lemma head?_eq_of_sorted_min {l : List ℤ} (hs : l.Sorted (· ≤ ·))
    (hn : l.Nodup) {p : ℤ} (hmem : p ∈ l) (hlb : ∀ a ∈ l, p ≤ a) :
    l.head? = some p := by
  cases l with
  | nil => cases hmem
  | cons b t =>
    rcases List.mem_cons.mp hmem with rfl | h
    · rfl
    · have h1 : p ≤ b := hlb b (List.mem_cons_self b t)
      have h2 : b ≤ p := List.rel_of_sorted_cons hs p h
      have : b = p := le_antisymm h2 h1
      simp [this]

lemma getLast?_eq_of_sorted_max {l : List ℤ} (hs : l.Sorted (· ≤ ·))
    {p : ℤ} (hmem : p ∈ l) (hub : ∀ a ∈ l, a ≤ p) :
    l.getLast? = some p := by
  have hne : l ≠ [] := List.ne_nil_of_mem hmem
  obtain ⟨m, hm⟩ := List.getLast?_isSome.mpr hne |> Option.isSome_iff_exists.mp
  have h1 : m ≤ p := hub m (List.mem_of_mem_getLast? hm)
  have h2 : p ≤ m := sorted_le_getLast hs hm hmem
  rw [hm, le_antisymm h1 h2]

lemma snapshot_clamp_before_found (tl : Timeline) (frame k0 : ℤ)
    (s : KeyframeSnapshot)
    (hne : tl.keyframe_states.isEmpty = false)
    (hmiss : List.lookup frame tl.keyframe_states = none)
    (hlb : ∀ k ∈ tl.keyframes, frame ≤ k)
    (hhead : (dedupSort tl.keyframes).head? = some k0)
    (hk0 : List.lookup k0 tl.keyframe_states = some s) :
    snapshot_at_frame tl frame = .ok (some s) := by
  have hbefore :
      (dedupSort tl.keyframes).filter (fun k => decide (k < frame)) = [] := by
    apply List.filter_eq_nil_iff.mpr
    intro a ha
    have : frame ≤ a := hlb a (mem_dedupSort.mp ha)
    simp only [decide_eq_true_eq]
    omega
  simp only [snapshot_at_frame, hne, hmiss, hbefore, hhead, hk0,
    Bool.false_eq_true, if_false, List.isEmpty_nil, if_true]

lemma snapshot_clamp_before_missing (tl : Timeline) (frame k0 : ℤ)
    (hne : tl.keyframe_states.isEmpty = false)
    (hmiss : List.lookup frame tl.keyframe_states = none)
    (hlb : ∀ k ∈ tl.keyframes, frame ≤ k)
    (hhead : (dedupSort tl.keyframes).head? = some k0)
    (hk0 : List.lookup k0 tl.keyframe_states = none) :
    snapshot_at_frame tl frame = .error .keyErr := by
  have hbefore :
      (dedupSort tl.keyframes).filter (fun k => decide (k < frame)) = [] := by
    apply List.filter_eq_nil_iff.mpr
    intro a ha
    have : frame ≤ a := hlb a (mem_dedupSort.mp ha)
    simp only [decide_eq_true_eq]
    omega
  simp only [snapshot_at_frame, hne, hmiss, hbefore, hhead, hk0,
    Bool.false_eq_true, if_false, List.isEmpty_nil, if_true]

lemma snapshot_clamp_after_found (tl : Timeline) (frame kL : ℤ)
    (s : KeyframeSnapshot)
    (hne : tl.keyframe_states.isEmpty = false)
    (hmiss : List.lookup frame tl.keyframe_states = none)
    (hex : ∃ k ∈ tl.keyframes, k < frame)
    (hub : ∀ k ∈ tl.keyframes, k ≤ frame)
    (hlast : (dedupSort tl.keyframes).getLast? = some kL)
    (hkL : List.lookup kL tl.keyframe_states = some s) :
    snapshot_at_frame tl frame = .ok (some s) := by
  obtain ⟨w, hwmem, hwlt⟩ := hex
  have hbe :
      ((dedupSort tl.keyframes).filter (fun k => decide (k < frame))).isEmpty
        = false := by
    rw [List.isEmpty_eq_false]
    intro hc
    have hw : w ∈ (dedupSort tl.keyframes).filter (fun k => decide (k < frame)) :=
      List.mem_filter.mpr ⟨mem_dedupSort.mpr hwmem, by simpa using hwlt⟩
    simp [hc] at hw
  have hafter :
      (dedupSort tl.keyframes).filter (fun k => decide (frame < k)) = [] := by
    apply List.filter_eq_nil_iff.mpr
    intro a ha
    have : a ≤ frame := hub a (mem_dedupSort.mp ha)
    simp only [decide_eq_true_eq]
    omega
  simp only [snapshot_at_frame, hne, hmiss, hbe, hafter, hlast, hkL,
    Bool.false_eq_true, if_false, List.isEmpty_nil, if_true]

lemma snapshot_clamp_after_missing (tl : Timeline) (frame kL : ℤ)
    (hne : tl.keyframe_states.isEmpty = false)
    (hmiss : List.lookup frame tl.keyframe_states = none)
    (hex : ∃ k ∈ tl.keyframes, k < frame)
    (hub : ∀ k ∈ tl.keyframes, k ≤ frame)
    (hlast : (dedupSort tl.keyframes).getLast? = some kL)
    (hkL : List.lookup kL tl.keyframe_states = none) :
    snapshot_at_frame tl frame = .error .keyErr := by
  obtain ⟨w, hwmem, hwlt⟩ := hex
  have hbe :
      ((dedupSort tl.keyframes).filter (fun k => decide (k < frame))).isEmpty
        = false := by
    rw [List.isEmpty_eq_false]
    intro hc
    have hw : w ∈ (dedupSort tl.keyframes).filter (fun k => decide (k < frame)) :=
      List.mem_filter.mpr ⟨mem_dedupSort.mpr hwmem, by simpa using hwlt⟩
    simp [hc] at hw
  have hafter :
      (dedupSort tl.keyframes).filter (fun k => decide (frame < k)) = [] := by
    apply List.filter_eq_nil_iff.mpr
    intro a ha
    have : a ≤ frame := hub a (mem_dedupSort.mp ha)
    simp only [decide_eq_true_eq]
    omega
  simp only [snapshot_at_frame, hne, hmiss, hbe, hafter, hlast, hkL,
    Bool.false_eq_true, if_false, List.isEmpty_nil, if_true]

lemma snapshot_bracket_found (tl : Timeline) (frame p n : ℤ)
    (sp sn : KeyframeSnapshot)
    (hne : tl.keyframe_states.isEmpty = false)
    (hmiss : List.lookup frame tl.keyframe_states = none)
    (hbl : ((dedupSort tl.keyframes).filter
      (fun k => decide (k < frame))).getLast? = some p)
    (hah : ((dedupSort tl.keyframes).filter
      (fun k => decide (frame < k))).head? = some n)
    (hsp : List.lookup p tl.keyframe_states = some sp)
    (hsn : List.lookup n tl.keyframe_states = some sn) :
    snapshot_at_frame tl frame =
      .ok (some (interpolate_snapshot sp sn
        (((frame : ℚ) - (p : ℚ)) / ((n : ℚ) - (p : ℚ))))) := by
  have hbe :
      ((dedupSort tl.keyframes).filter (fun k => decide (k < frame))).isEmpty
        = false := by
    rw [List.isEmpty_eq_false]
    intro hc
    rw [hc] at hbl
    cases hbl
  have haf :
      ((dedupSort tl.keyframes).filter (fun k => decide (frame < k))).isEmpty
        = false := by
    rw [List.isEmpty_eq_false]
    intro hc
    rw [hc] at hah
    cases hah
  simp only [snapshot_at_frame, hne, hmiss, hbe, haf, hbl, hah, hsp, hsn,
    Bool.false_eq_true, if_false]

lemma snapshot_bracket_missing (tl : Timeline) (frame p n : ℤ)
    (hne : tl.keyframe_states.isEmpty = false)
    (hmiss : List.lookup frame tl.keyframe_states = none)
    (hbl : ((dedupSort tl.keyframes).filter
      (fun k => decide (k < frame))).getLast? = some p)
    (hah : ((dedupSort tl.keyframes).filter
      (fun k => decide (frame < k))).head? = some n)
    (hmissing : List.lookup p tl.keyframe_states = none ∨
      List.lookup n tl.keyframe_states = none) :
    snapshot_at_frame tl frame = .error .keyErr := by
  have hbe :
      ((dedupSort tl.keyframes).filter (fun k => decide (k < frame))).isEmpty
        = false := by
    rw [List.isEmpty_eq_false]
    intro hc
    rw [hc] at hbl
    cases hbl
  have haf :
      ((dedupSort tl.keyframes).filter (fun k => decide (frame < k))).isEmpty
        = false := by
    rw [List.isEmpty_eq_false]
    intro hc
    rw [hc] at hah
    cases hah
  rcases hmissing with h | h
  · cases hn : List.lookup n tl.keyframe_states with
    | none =>
      simp only [snapshot_at_frame, hne, hmiss, hbe, haf, hbl, hah, h, hn,
        Bool.false_eq_true, if_false]
    | some sn =>
      simp only [snapshot_at_frame, hne, hmiss, hbe, haf, hbl, hah, h, hn,
        Bool.false_eq_true, if_false]
  · cases hp : List.lookup p tl.keyframe_states with
    | none =>
      simp only [snapshot_at_frame, hne, hmiss, hbe, haf, hbl, hah, h, hp,
        Bool.false_eq_true, if_false]
    | some sp =>
      simp only [snapshot_at_frame, hne, hmiss, hbe, haf, hbl, hah, h, hp,
        Bool.false_eq_true, if_false]

lemma fmod360_nonneg (q : ℚ) : 0 ≤ fmod360 q := by
  unfold fmod360
  have h := Int.floor_le (q / 360)
  have h2 : (360 : ℚ) * ⌊q / 360⌋ ≤ 360 * (q / 360) :=
    mul_le_mul_of_nonneg_left h (by norm_num)
  have h3 : (360 : ℚ) * (q / 360) = q := by
    field_simp
  linarith

lemma fmod360_lt (q : ℚ) : fmod360 q < 360 := by
  unfold fmod360
  have h := Int.lt_floor_add_one (q / 360)
  have h2 : (360 : ℚ) * (q / 360) < 360 * (⌊q / 360⌋ + 1) :=
    mul_lt_mul_of_pos_left h (by norm_num)
  have h3 : (360 : ℚ) * (q / 360) = q := by
    field_simp
  linarith

/-! ### Claim theorems -/

/-- C2: for every timeline and frame number that is a key of
`keyframe_states`, `snapshot_at_frame` returns exactly the stored
snapshot (the looked-up value itself, with no blending applied). -/
theorem resolve_exact_key_returns_stored (tl : Timeline) (k : ℤ)
    (s : KeyframeSnapshot)
    (h : List.lookup k tl.keyframe_states = some s) :
    snapshot_at_frame tl k = .ok (some s) := by
  have hne : tl.keyframe_states.isEmpty = false := by
    rw [List.isEmpty_eq_false]
    intro hc
    rw [hc] at h
    cases h
  simp only [snapshot_at_frame, hne, h, Bool.false_eq_true, if_false]

/-- Witness for C2 at the repository test project, frame 0. -/
theorem resolve_exact_key_returns_stored_witness :
    List.lookup (0 : ℤ) sampleTimeline.keyframe_states = some sampleSnap0 ∧
    snapshot_at_frame sampleTimeline 0 = .ok (some sampleSnap0) :=
  ⟨rfl, resolve_exact_key_returns_stored sampleTimeline 0 sampleSnap0 rfl⟩

/-- C3: `interpolate_snapshot` takes background path and size, the layer
list and the active layer id unchanged from `prev`; its item list follows
the order of `prev.scene.items`, interpolating only x, y, scale and
rotation of the items whose id also occurs in `nxt` and carrying every
other item (and every other field) through unchanged; it never contains
an item present only in `nxt`. -/
theorem blend_structure_spec (prev nxt : KeyframeSnapshot) (t : ℚ) :
    (interpolate_snapshot prev nxt t).scene.background_path =
      prev.scene.background_path ∧
    (interpolate_snapshot prev nxt t).scene.background_size =
      prev.scene.background_size ∧
    (interpolate_snapshot prev nxt t).layers = prev.layers ∧
    (interpolate_snapshot prev nxt t).active_layer_id =
      prev.active_layer_id ∧
    (interpolate_snapshot prev nxt t).scene.items =
      prev.scene.items.map (fun it =>
        match List.lookup it.item_id
            (listToDict (nxt.scene.items.map (fun o => (o.item_id, o)))) with
        | some o => _interpolate_item it o t
        | none => it) ∧
    (interpolate_snapshot prev nxt t).scene.items.map (fun it => it.item_id) =
      prev.scene.items.map (fun it => it.item_id) ∧
    (∀ it ∈ (interpolate_snapshot prev nxt t).scene.items,
      ∃ b ∈ prev.scene.items, it.item_id = b.item_id) ∧
    (∀ base other : SceneItem,
      (_interpolate_item base other t).item_id = base.item_id ∧
      (_interpolate_item base other t).kind = base.kind ∧
      (_interpolate_item base other t).label = base.label ∧
      (_interpolate_item base other t).asset_path = base.asset_path ∧
      (_interpolate_item base other t).width = base.width ∧
      (_interpolate_item base other t).height = base.height ∧
      (_interpolate_item base other t).variants = base.variants ∧
      (_interpolate_item base other t).member_rotations =
        base.member_rotations ∧
      (_interpolate_item base other t).attachment = base.attachment ∧
      (_interpolate_item base other t).x = _lerp base.x other.x t ∧
      (_interpolate_item base other t).y = _lerp base.y other.y t ∧
      (_interpolate_item base other t).scale = _lerp base.scale other.scale t ∧
      (_interpolate_item base other t).rotation =
        _lerp_angle base.rotation other.rotation t) := by
  have hitems : (interpolate_snapshot prev nxt t).scene.items =
      prev.scene.items.map (fun it =>
        match List.lookup it.item_id
            (listToDict (nxt.scene.items.map (fun o => (o.item_id, o)))) with
        | some o => _interpolate_item it o t
        | none => it) := rfl
  have hids : (interpolate_snapshot prev nxt t).scene.items.map
      (fun it => it.item_id) = prev.scene.items.map (fun it => it.item_id) := by
    rw [hitems, List.map_map]
    apply List.map_congr_left
    intro a _
    cases h : List.lookup a.item_id
        (listToDict (nxt.scene.items.map (fun o => (o.item_id, o)))) <;>
      simp [h, _interpolate_item]
  refine ⟨rfl, rfl, rfl, rfl, hitems, hids, ?_, ?_⟩
  · intro it hit
    rw [hitems] at hit
    obtain ⟨b, hb, rfl⟩ := List.mem_map.mp hit
    refine ⟨b, hb, ?_⟩
    cases h : List.lookup b.item_id
        (listToDict (nxt.scene.items.map (fun o => (o.item_id, o)))) <;>
      simp [h, _interpolate_item]
  · intro base other
    exact ⟨rfl, rfl, rfl, rfl, rfl, rfl, rfl, rfl, rfl, rfl, rfl, rfl, rfl⟩

/-- C5 (amended): the delta computed by `_lerp_angle` is congruent to
`b - a` modulo 360 and lies in `[-180, 180)` (minus 180 included, 180
excluded — not in `(-180, 180]` as claimed), and
`_lerp_angle a b t = a + delta * t`. -/
theorem lerp_angle_delta_spec (a b t : ℚ) :
    -180 ≤ lerpAngleDelta a b ∧ lerpAngleDelta a b < 180 ∧
    (∃ k : ℤ, lerpAngleDelta a b = (b - a) + 360 * k) ∧
    _lerp_angle a b t = a + lerpAngleDelta a b * t := by
  have h1 := fmod360_nonneg (fmod360 (b - a) + 540)
  have h4 := fmod360_lt (fmod360 (b - a) + 540)
  have hd : lerpAngleDelta a b = fmod360 (fmod360 (b - a) + 540) - 180 := rfl
  refine ⟨?_, ?_, ?_, rfl⟩
  · rw [hd]
    linarith
  · rw [hd]
    linarith
  · refine ⟨1 - ⌊(b - a) / 360⌋ - ⌊(fmod360 (b - a) + 540) / 360⌋, ?_⟩
    rw [hd]
    have he1 : fmod360 (b - a) = (b - a) - 360 * ⌊(b - a) / 360⌋ := rfl
    have he2 : fmod360 (fmod360 (b - a) + 540) =
        (fmod360 (b - a) + 540) - 360 * ⌊(fmod360 (b - a) + 540) / 360⌋ := rfl
    rw [he2]
    rw [he1]
    push_cast
    ring

/-- C5 counterexample: at `a = 0`, `b = 180` the delta is exactly `-180`,
so it is not strictly greater than `-180` as the claim states. -/
theorem lerp_angle_delta_neg180_counterexample :
    lerpAngleDelta 0 180 = -180 ∧ ¬ (-180 < lerpAngleDelta 0 180) := by
  norm_num [lerpAngleDelta, fmod360]

/-- C6 (amended): interpolating rotation from 350 to 10 at `t = 1/2`
yields 360, which is congruent to 0 modulo 360 (the path wraps through
360/0) and is not congruent to 180 — but it is the number 360, not 0. -/
theorem lerp_angle_wrap_spec :
    _lerp_angle 350 10 (1 / 2) = 360 ∧
    (∃ k : ℤ, _lerp_angle 350 10 (1 / 2) - 0 = 360 * k) ∧
    (∀ k : ℤ, _lerp_angle 350 10 (1 / 2) - 180 ≠ 360 * k) := by
  have h360 : _lerp_angle 350 10 (1 / 2) = 360 := by
    norm_num [_lerp_angle, lerpAngleDelta, fmod360]
  refine ⟨h360, ⟨1, by rw [h360]; norm_num⟩, ?_⟩
  intro k hk
  rw [h360] at hk
  have h2 : ((2 * k : ℤ) : ℚ) = 1 := by
    push_cast
    linarith
  have h3 : (2 * k : ℤ) = 1 := by exact_mod_cast h2
  omega

/-- C6 counterexample: `_lerp_angle 350 10 0.5` is the number 360, which
is not 0 (the claim asserts the result is 0 degrees). -/
theorem lerp_angle_wrap_counterexample :
    _lerp_angle 350 10 (1 / 2) = 360 ∧ (360 : ℚ) ≠ 0 := by
  norm_num [_lerp_angle, lerpAngleDelta, fmod360]

/-- C4 (amended): when the stored keyframes list is sorted ascending
(duplicates allowed), `jump_prev_keyframe` returns the maximum keyframe
strictly below `frame` and `jump_next_keyframe` the minimum strictly
above, each defaulting to `frame` when no such keyframe exists; both are
total for every timeline.  On an unsorted list they instead return the
last, resp. first, qualifying entry in stored order. -/
theorem jump_keyframe_sorted_spec (tl : Timeline) (frame : ℤ)
    (hs : tl.keyframes.Sorted (· ≤ ·)) :
    ((∃ k ∈ tl.keyframes, k < frame) →
      jump_prev_keyframe tl frame ∈ tl.keyframes ∧
      jump_prev_keyframe tl frame < frame ∧
      ∀ k ∈ tl.keyframes, k < frame → k ≤ jump_prev_keyframe tl frame) ∧
    ((∀ k ∈ tl.keyframes, ¬ k < frame) → jump_prev_keyframe tl frame = frame) ∧
    ((∃ k ∈ tl.keyframes, frame < k) →
      jump_next_keyframe tl frame ∈ tl.keyframes ∧
      frame < jump_next_keyframe tl frame ∧
      ∀ k ∈ tl.keyframes, frame < k → jump_next_keyframe tl frame ≤ k) ∧
    ((∀ k ∈ tl.keyframes, ¬ frame < k) → jump_next_keyframe tl frame = frame) := by
  refine ⟨?_, ?_, ?_, ?_⟩
  · rintro ⟨w, hwmem, hwlt⟩
    have hwf : w ∈ tl.keyframes.filter (fun k => decide (k < frame)) :=
      List.mem_filter.mpr ⟨hwmem, by simpa using hwlt⟩
    have hne : tl.keyframes.filter (fun k => decide (k < frame)) ≠ [] :=
      List.ne_nil_of_mem hwf
    obtain ⟨m, hm⟩ :=
      Option.isSome_iff_exists.mp (List.getLast?_isSome.mpr hne)
    have hjump : jump_prev_keyframe tl frame = m := by
      simp [jump_prev_keyframe, hm]
    have hmmem := List.mem_of_mem_getLast? hm
    have hmem2 := List.mem_filter.mp hmmem
    refine ⟨hjump ▸ hmem2.1, hjump ▸ (by simpa using hmem2.2), ?_⟩
    intro k hk hklt
    have hkf : k ∈ tl.keyframes.filter (fun j => decide (j < frame)) :=
      List.mem_filter.mpr ⟨hk, by simpa using hklt⟩
    have := sorted_le_getLast (hs.filter _) hm hkf
    omega
  · intro hnone
    have hnil : tl.keyframes.filter (fun k => decide (k < frame)) = [] := by
      apply List.filter_eq_nil_iff.mpr
      intro a ha
      have := hnone a ha
      simpa using this
    simp [jump_prev_keyframe, hnil]
  · rintro ⟨w, hwmem, hwgt⟩
    have hwf : w ∈ tl.keyframes.filter (fun k => decide (frame < k)) :=
      List.mem_filter.mpr ⟨hwmem, by simpa using hwgt⟩
    have hne : tl.keyframes.filter (fun k => decide (frame < k)) ≠ [] :=
      List.ne_nil_of_mem hwf
    obtain ⟨m, rest, hcons⟩ := List.exists_cons_of_ne_nil hne
    have hm : (tl.keyframes.filter (fun k => decide (frame < k))).head? =
        some m := by
      rw [hcons]
      rfl
    have hjump : jump_next_keyframe tl frame = m := by
      simp [jump_next_keyframe, hm]
    have hmmem : m ∈ tl.keyframes.filter (fun k => decide (frame < k)) :=
      List.mem_of_mem_head? hm
    have hmem2 := List.mem_filter.mp hmmem
    refine ⟨hjump ▸ hmem2.1, hjump ▸ (by simpa using hmem2.2), ?_⟩
    intro k hk hkgt
    have hkf : k ∈ tl.keyframes.filter (fun j => decide (frame < j)) :=
      List.mem_filter.mpr ⟨hk, by simpa using hkgt⟩
    have := sorted_head_le (hs.filter _) hm hkf
    omega
  · intro hnone
    have hnil : tl.keyframes.filter (fun k => decide (frame < k)) = [] := by
      apply List.filter_eq_nil_iff.mpr
      intro a ha
      have := hnone a ha
      simpa using this
    simp [jump_next_keyframe, hnil]

/-- Witness for C4 (amended) at the repository test project, frame 8:
the previous keyframe is 0 and the next is 10. -/
theorem jump_keyframe_sorted_spec_witness :
    sampleTimeline.keyframes.Sorted (· ≤ ·) ∧
    jump_prev_keyframe sampleTimeline 8 = 0 ∧
    jump_next_keyframe sampleTimeline 8 = 10 ∧
    (jump_prev_keyframe sampleTimeline 8 ∈ sampleTimeline.keyframes ∧
      jump_prev_keyframe sampleTimeline 8 < 8 ∧
      ∀ k ∈ sampleTimeline.keyframes, k < 8 →
        k ≤ jump_prev_keyframe sampleTimeline 8) ∧
    (jump_next_keyframe sampleTimeline 8 ∈ sampleTimeline.keyframes ∧
      8 < jump_next_keyframe sampleTimeline 8 ∧
      ∀ k ∈ sampleTimeline.keyframes, 8 < k →
        jump_next_keyframe sampleTimeline 8 ≤ k) := by
  have hs : sampleTimeline.keyframes.Sorted (· ≤ ·) := by
    simp [sampleTimeline]
  have hspec := jump_keyframe_sorted_spec sampleTimeline 8 hs
  refine ⟨hs, rfl, rfl, ?_, ?_⟩
  · exact hspec.1 ⟨0, by simp [sampleTimeline], by norm_num⟩
  · exact hspec.2.2.1 ⟨10, by simp [sampleTimeline], by norm_num⟩

/-- C4 counterexample: on the unsorted keyframes list `[5, 2]`,
`jump_prev_keyframe` at frame 10 returns 2 even though the maximum
qualifying keyframe is 5, and `jump_next_keyframe` at frame 0 returns 5
even though the minimum qualifying keyframe is 2. -/
theorem jump_unsorted_counterexample :
    jump_prev_keyframe unsortedTimeline 10 = 2 ∧
    (5 : ℤ) ∈ unsortedTimeline.keyframes ∧ (5 : ℤ) < 10 ∧
    ¬ (∀ k ∈ unsortedTimeline.keyframes, k < 10 →
        k ≤ jump_prev_keyframe unsortedTimeline 10) ∧
    jump_next_keyframe unsortedTimeline 0 = 5 ∧
    (2 : ℤ) ∈ unsortedTimeline.keyframes ∧ (0 : ℤ) < 2 ∧
    ¬ (∀ k ∈ unsortedTimeline.keyframes, 0 < k →
        jump_next_keyframe unsortedTimeline 0 ≤ k) := by
  have hprev : jump_prev_keyframe unsortedTimeline 10 = 2 := by
    norm_num [jump_prev_keyframe, unsortedTimeline, sampleTimeline]
  have hnext : jump_next_keyframe unsortedTimeline 0 = 5 := by
    norm_num [jump_next_keyframe, unsortedTimeline, sampleTimeline]
  refine ⟨hprev, by simp [unsortedTimeline, sampleTimeline], by norm_num,
    ?_, hnext, by simp [unsortedTimeline, sampleTimeline], by norm_num, ?_⟩
  · intro h
    have h5 := h 5 (by simp [unsortedTimeline, sampleTimeline]) (by norm_num)
    rw [hprev] at h5
    omega
  · intro h
    have h2 := h 2 (by simp [unsortedTimeline, sampleTimeline]) (by norm_num)
    rw [hnext] at h2
    omega

/-- C1: for a timeline whose listed keyframes all have stored states and
a frame that is not an exact key, `snapshot_at_frame` clamps to the
smallest keyframe below the range, clamps to the largest above it, and
otherwise blends the bracketing keyframes with a ratio strictly between
0 and 1. -/
theorem resolve_non_key_spec (tl : Timeline) (frame : ℤ)
    (hmiss : List.lookup frame tl.keyframe_states = none)
    (hkf : tl.keyframes ≠ [])
    (hwf : ∀ k ∈ tl.keyframes,
      ∃ s, List.lookup k tl.keyframe_states = some s) :
    ((∀ k ∈ tl.keyframes, frame < k) →
      ∃ kmin s, kmin ∈ tl.keyframes ∧ (∀ k ∈ tl.keyframes, kmin ≤ k) ∧
        List.lookup kmin tl.keyframe_states = some s ∧
        snapshot_at_frame tl frame = .ok (some s)) ∧
    ((∀ k ∈ tl.keyframes, k < frame) →
      ∃ kmax s, kmax ∈ tl.keyframes ∧ (∀ k ∈ tl.keyframes, k ≤ kmax) ∧
        List.lookup kmax tl.keyframe_states = some s ∧
        snapshot_at_frame tl frame = .ok (some s)) ∧
    (∀ p0 n0, p0 ∈ tl.keyframes → p0 < frame →
      n0 ∈ tl.keyframes → frame < n0 →
      ∃ p n sp sn, p ∈ tl.keyframes ∧ p < frame ∧
        (∀ k ∈ tl.keyframes, k < frame → k ≤ p) ∧
        n ∈ tl.keyframes ∧ frame < n ∧
        (∀ k ∈ tl.keyframes, frame < k → n ≤ k) ∧
        List.lookup p tl.keyframe_states = some sp ∧
        List.lookup n tl.keyframe_states = some sn ∧
        0 < ((frame : ℚ) - (p : ℚ)) / ((n : ℚ) - (p : ℚ)) ∧
        ((frame : ℚ) - (p : ℚ)) / ((n : ℚ) - (p : ℚ)) < 1 ∧
        snapshot_at_frame tl frame =
          .ok (some (interpolate_snapshot sp sn
            (((frame : ℚ) - (p : ℚ)) / ((n : ℚ) - (p : ℚ)))))) := by
  have hne : tl.keyframe_states.isEmpty = false := by
    rw [List.isEmpty_eq_false]
    obtain ⟨w, hw⟩ := List.exists_mem_of_ne_nil tl.keyframes hkf
    obtain ⟨s, hsm⟩ := hwf w hw
    intro hc
    rw [hc] at hsm
    cases hsm
  refine ⟨?_, ?_, ?_⟩
  · intro hlt
    obtain ⟨k0, rest, hks⟩ :=
      List.exists_cons_of_ne_nil (dedupSort_ne_nil hkf)
    have hhead : (dedupSort tl.keyframes).head? = some k0 := by
      rw [hks]
      rfl
    have hk0ks : k0 ∈ dedupSort tl.keyframes := by
      rw [hks]
      exact List.mem_cons_self k0 rest
    have hk0mem : k0 ∈ tl.keyframes := mem_dedupSort.mp hk0ks
    obtain ⟨s, hs⟩ := hwf k0 hk0mem
    refine ⟨k0, s, hk0mem, ?_, hs, ?_⟩
    · intro k hk
      exact sorted_head_le (sorted_dedupSort tl.keyframes) hhead
        (mem_dedupSort.mpr hk)
    · exact snapshot_clamp_before_found tl frame k0 s hne hmiss
        (fun k hk => le_of_lt (hlt k hk)) hhead hs
  · intro hgt
    obtain ⟨kL, hlast⟩ := Option.isSome_iff_exists.mp
      (List.getLast?_isSome.mpr (dedupSort_ne_nil hkf))
    have hkLks : kL ∈ dedupSort tl.keyframes := List.mem_of_mem_getLast? hlast
    have hkLmem : kL ∈ tl.keyframes := mem_dedupSort.mp hkLks
    obtain ⟨s, hs⟩ := hwf kL hkLmem
    obtain ⟨w, hw⟩ := List.exists_mem_of_ne_nil tl.keyframes hkf
    refine ⟨kL, s, hkLmem, ?_, hs, ?_⟩
    · intro k hk
      exact sorted_le_getLast (sorted_dedupSort tl.keyframes) hlast
        (mem_dedupSort.mpr hk)
    · exact snapshot_clamp_after_found tl frame kL s hne hmiss
        ⟨w, hw, hgt w hw⟩ (fun k hk => le_of_lt (hgt k hk)) hlast hs
  · intro p0 n0 hp0mem hp0lt hn0mem hn0gt
    have hbf_ne :
        (dedupSort tl.keyframes).filter (fun k => decide (k < frame)) ≠ [] := by
      apply List.ne_nil_of_mem
        (a := p0)
      exact List.mem_filter.mpr ⟨mem_dedupSort.mpr hp0mem, by simpa using hp0lt⟩
    obtain ⟨p, hbl⟩ := Option.isSome_iff_exists.mp
      (List.getLast?_isSome.mpr hbf_ne)
    have hpf := List.mem_filter.mp (List.mem_of_mem_getLast? hbl)
    have hpmem : p ∈ tl.keyframes := mem_dedupSort.mp hpf.1
    have hplt : p < frame := by simpa using hpf.2
    have haf_ne :
        (dedupSort tl.keyframes).filter (fun k => decide (frame < k)) ≠ [] := by
      apply List.ne_nil_of_mem
        (a := n0)
      exact List.mem_filter.mpr ⟨mem_dedupSort.mpr hn0mem, by simpa using hn0gt⟩
    obtain ⟨n, rest2, hcons2⟩ := List.exists_cons_of_ne_nil haf_ne
    have hah : ((dedupSort tl.keyframes).filter
        (fun k => decide (frame < k))).head? = some n := by
      rw [hcons2]
      rfl
    have hnf := List.mem_filter.mp (List.mem_of_mem_head? hah)
    have hnmem : n ∈ tl.keyframes := mem_dedupSort.mp hnf.1
    have hngt : frame < n := by simpa using hnf.2
    obtain ⟨sp, hsp⟩ := hwf p hpmem
    obtain ⟨sn, hsn⟩ := hwf n hnmem
    have hpn : p < n := lt_trans hplt hngt
    have hdenpos : (0 : ℚ) < (n : ℚ) - (p : ℚ) := by
      rw [sub_pos]
      exact_mod_cast hpn
    have hnumpos : (0 : ℚ) < (frame : ℚ) - (p : ℚ) := by
      rw [sub_pos]
      exact_mod_cast hplt
    refine ⟨p, n, sp, sn, hpmem, hplt, ?_, hnmem, hngt, ?_, hsp, hsn,
      div_pos hnumpos hdenpos, ?_, ?_⟩
    · intro k hk hklt
      exact sorted_le_getLast
        ((sorted_dedupSort tl.keyframes).filter _) hbl
        (List.mem_filter.mpr ⟨mem_dedupSort.mpr hk, by simpa using hklt⟩)
    · intro k hk hkgt
      exact sorted_head_le
        ((sorted_dedupSort tl.keyframes).filter _) hah
        (List.mem_filter.mpr ⟨mem_dedupSort.mpr hk, by simpa using hkgt⟩)
    · rw [div_lt_one hdenpos]
      have : (frame : ℚ) < (n : ℚ) := by exact_mod_cast hngt
      linarith
    · exact snapshot_bracket_found tl frame p n sp sn hne hmiss hbl hah hsp hsn

/-- Witness for C1 at the repository test project: frame 5 is strictly
between keyframes 0 and 10, the blend ratio is 1/2, and the interpolated
item has x = 60, y = 110 and scale = 3/2. -/
theorem resolve_non_key_spec_witness :
    (List.lookup (5 : ℤ) sampleTimeline.keyframe_states = none ∧
      sampleTimeline.keyframes ≠ [] ∧
      ∀ k ∈ sampleTimeline.keyframes,
        ∃ s, List.lookup k sampleTimeline.keyframe_states = some s) ∧
    (∃ p n sp sn, p ∈ sampleTimeline.keyframes ∧ p < 5 ∧
      (∀ k ∈ sampleTimeline.keyframes, k < 5 → k ≤ p) ∧
      n ∈ sampleTimeline.keyframes ∧ 5 < n ∧
      (∀ k ∈ sampleTimeline.keyframes, 5 < k → n ≤ k) ∧
      List.lookup p sampleTimeline.keyframe_states = some sp ∧
      List.lookup n sampleTimeline.keyframe_states = some sn ∧
      0 < ((5 : ℚ) - (p : ℚ)) / ((n : ℚ) - (p : ℚ)) ∧
      ((5 : ℚ) - (p : ℚ)) / ((n : ℚ) - (p : ℚ)) < 1 ∧
      snapshot_at_frame sampleTimeline 5 =
        .ok (some (interpolate_snapshot sp sn
          (((5 : ℚ) - (p : ℚ)) / ((n : ℚ) - (p : ℚ)))))) ∧
    snapshot_at_frame sampleTimeline 5 =
      .ok (some (interpolate_snapshot sampleSnap0 sampleSnap10 (1 / 2))) ∧
    (interpolate_snapshot sampleSnap0 sampleSnap10 (1 / 2)).scene.items.map
      (fun it => (it.x, it.y, it.scale)) = [(60, 110, 3 / 2)] := by
  have h1 : List.lookup (5 : ℤ) sampleTimeline.keyframe_states = none := rfl
  have h2 : sampleTimeline.keyframes ≠ [] := by simp [sampleTimeline]
  have h3 : ∀ k ∈ sampleTimeline.keyframes,
      ∃ s, List.lookup k sampleTimeline.keyframe_states = some s := by
    intro k hk
    rw [show sampleTimeline.keyframes = [0, 10] from rfl] at hk
    rcases List.mem_cons.mp hk with rfl | hk2
    · exact ⟨sampleSnap0, rfl⟩
    rcases List.mem_cons.mp hk2 with rfl | hk3
    · exact ⟨sampleSnap10, rfl⟩
    · cases hk3
  refine ⟨⟨h1, h2, h3⟩, ?_, ?_, ?_⟩
  · exact (resolve_non_key_spec sampleTimeline 5 h1 h2 h3).2.2 0 10
      (by simp [sampleTimeline]) (by norm_num)
      (by simp [sampleTimeline]) (by norm_num)
  · norm_num [snapshot_at_frame, sampleTimeline, dedupSort,
      List.insertionSort, List.orderedInsert, List.dedup, List.lookup,
      beq_eq_decide]
  · norm_num [interpolate_snapshot, _interpolate_item, _lerp, _lerp_angle,
      lerpAngleDelta, fmod360, listToDict, dictInsert, List.lookup,
      sampleSnap0, sampleSnap10, sampleItem0, sampleItem10, beq_eq_decide]

lemma snapshot_total (tl : Timeline) (frame : ℤ)
    (hkf : tl.keyframes ≠ [])
    (hwf : ∀ k ∈ tl.keyframes,
      ∃ s, List.lookup k tl.keyframe_states = some s) :
    ∃ s, snapshot_at_frame tl frame = .ok (some s) := by
  have hne : tl.keyframe_states.isEmpty = false := by
    rw [List.isEmpty_eq_false]
    obtain ⟨w, hw⟩ := List.exists_mem_of_ne_nil tl.keyframes hkf
    obtain ⟨s, hsm⟩ := hwf w hw
    intro hc
    rw [hc] at hsm
    cases hsm
  cases hex : List.lookup frame tl.keyframe_states with
  | some s =>
    exact ⟨s, by simp only [snapshot_at_frame, hne, hex, Bool.false_eq_true,
      if_false]⟩
  | none =>
    by_cases hb : ∃ k ∈ tl.keyframes, k < frame
    · by_cases ha : ∃ k ∈ tl.keyframes, frame < k
      · obtain ⟨p0, hp0mem, hp0lt⟩ := hb
        obtain ⟨n0, hn0mem, hn0gt⟩ := ha
        have hbf_ne : (dedupSort tl.keyframes).filter
            (fun k => decide (k < frame)) ≠ [] :=
          List.ne_nil_of_mem (List.mem_filter.mpr
            ⟨mem_dedupSort.mpr hp0mem, by simpa using hp0lt⟩)
        obtain ⟨p, hbl⟩ := Option.isSome_iff_exists.mp
          (List.getLast?_isSome.mpr hbf_ne)
        have hpmem : p ∈ tl.keyframes :=
          mem_dedupSort.mp (List.mem_filter.mp
            (List.mem_of_mem_getLast? hbl)).1
        have haf_ne : (dedupSort tl.keyframes).filter
            (fun k => decide (frame < k)) ≠ [] :=
          List.ne_nil_of_mem (List.mem_filter.mpr
            ⟨mem_dedupSort.mpr hn0mem, by simpa using hn0gt⟩)
        obtain ⟨n, rest2, hcons2⟩ := List.exists_cons_of_ne_nil haf_ne
        have hah : ((dedupSort tl.keyframes).filter
            (fun k => decide (frame < k))).head? = some n := by
          rw [hcons2]
          rfl
        have hnmem : n ∈ tl.keyframes :=
          mem_dedupSort.mp (List.mem_filter.mp (List.mem_of_mem_head? hah)).1
        obtain ⟨sp, hsp⟩ := hwf p hpmem
        obtain ⟨sn, hsn⟩ := hwf n hnmem
        exact ⟨interpolate_snapshot sp sn
          (((frame : ℚ) - (p : ℚ)) / ((n : ℚ) - (p : ℚ))),
          snapshot_bracket_found tl frame p n sp sn hne hex hbl hah hsp hsn⟩
      · push_neg at ha
        obtain ⟨kL, hlast⟩ := Option.isSome_iff_exists.mp
          (List.getLast?_isSome.mpr (dedupSort_ne_nil hkf))
        have hkLmem : kL ∈ tl.keyframes :=
          mem_dedupSort.mp (List.mem_of_mem_getLast? hlast)
        obtain ⟨s, hs⟩ := hwf kL hkLmem
        exact ⟨s, snapshot_clamp_after_found tl frame kL s hne hex hb
          ha hlast hs⟩
    · push_neg at hb
      obtain ⟨k0, rest, hks⟩ :=
        List.exists_cons_of_ne_nil (dedupSort_ne_nil hkf)
      have hhead : (dedupSort tl.keyframes).head? = some k0 := by
        rw [hks]
        rfl
      have hk0mem : k0 ∈ tl.keyframes :=
        mem_dedupSort.mp (by rw [hks]; exact List.mem_cons_self k0 rest)
      obtain ⟨s, hs⟩ := hwf k0 hk0mem
      exact ⟨s, snapshot_clamp_before_found tl frame k0 s hne hex hb hhead hs⟩

/-- C8: `snapshot_at_frame` returns the none result exactly when the
timeline has no keyframe state at all, and for every timeline whose
keyframes all have stored states (and conversely every stored state is a
listed keyframe) with at least one keyframe, it produces a snapshot for
every integer frame. -/
theorem resolve_none_iff_empty_spec (tl : Timeline) (frame : ℤ)
    (hsub : ∀ k ∈ tl.keyframes,
      ∃ s, List.lookup k tl.keyframe_states = some s)
    (hsup : ∀ k s, List.lookup k tl.keyframe_states = some s →
      k ∈ tl.keyframes) :
    (snapshot_at_frame tl frame = .ok none ↔ tl.keyframe_states = []) ∧
    (tl.keyframe_states ≠ [] →
      ∃ s, snapshot_at_frame tl frame = .ok (some s)) := by
  have htot : tl.keyframe_states ≠ [] →
      ∃ s, snapshot_at_frame tl frame = .ok (some s) := by
    intro hne
    obtain ⟨⟨k0, s0⟩, rest, hcons⟩ := List.exists_cons_of_ne_nil hne
    have hl0 : List.lookup k0 tl.keyframe_states = some s0 := by
      rw [hcons]
      simp [List.lookup]
    have hkf : tl.keyframes ≠ [] :=
      List.ne_nil_of_mem (hsup k0 s0 hl0)
    exact snapshot_total tl frame hkf hsub
  refine ⟨⟨?_, ?_⟩, htot⟩
  · intro hok
    by_contra hne
    obtain ⟨s, hs⟩ := htot hne
    rw [hs] at hok
    cases hok
  · intro hc
    simp [snapshot_at_frame, hc]

/-- Witness for C8 at the repository test project, frame 7. -/
theorem resolve_none_iff_empty_spec_witness :
    (∀ k ∈ sampleTimeline.keyframes,
      ∃ s, List.lookup k sampleTimeline.keyframe_states = some s) ∧
    (∀ k s, List.lookup k sampleTimeline.keyframe_states = some s →
      k ∈ sampleTimeline.keyframes) ∧
    sampleTimeline.keyframe_states ≠ [] ∧
    ¬ snapshot_at_frame sampleTimeline 7 = .ok none ∧
    (∃ s, snapshot_at_frame sampleTimeline 7 = .ok (some s)) := by
  have hsub : ∀ k ∈ sampleTimeline.keyframes,
      ∃ s, List.lookup k sampleTimeline.keyframe_states = some s := by
    intro k hk
    rw [show sampleTimeline.keyframes = [0, 10] from rfl] at hk
    rcases List.mem_cons.mp hk with rfl | hk2
    · exact ⟨sampleSnap0, rfl⟩
    rcases List.mem_cons.mp hk2 with rfl | hk3
    · exact ⟨sampleSnap10, rfl⟩
    · cases hk3
  have hsup : ∀ k s, List.lookup k sampleTimeline.keyframe_states = some s →
      k ∈ sampleTimeline.keyframes := by
    intro k s h
    by_cases h0 : k = 0
    · subst h0
      simp [sampleTimeline]
    by_cases h10 : k = 10
    · subst h10
      simp [sampleTimeline]
    · exfalso
      have hnone : List.lookup k sampleTimeline.keyframe_states = none := by
        simp [sampleTimeline, List.lookup, beq_eq_decide, h0, h10]
      rw [hnone] at h
      cases h
  have hspec := resolve_none_iff_empty_spec sampleTimeline 7 hsub hsup
  have hne : sampleTimeline.keyframe_states ≠ [] := by
    simp [sampleTimeline]
  refine ⟨hsub, hsup, hne, ?_, hspec.2 hne⟩
  intro hok
  exact hne (hspec.1.mp hok)

/-- C7 (amended): with a non-empty state map and a frame that is not an
exact key, `snapshot_at_frame` never returns the none result, and it
fails loudly with a lookup error whenever the keyframe it selects (the
minimum when the frame precedes all keyframes, the maximum when it
follows all of them, or either bracketing keyframe otherwise) is
dangling, i.e. listed in `keyframes` without an entry in
`keyframe_states`.  Resolving the dangling frame number itself, however,
silently blends the surrounding stored keyframes instead of failing
(see the counterexample). -/
theorem dangling_keyframe_error_spec (tl : Timeline) (frame : ℤ)
    (hne : tl.keyframe_states ≠ [])
    (hmiss : List.lookup frame tl.keyframe_states = none) :
    (snapshot_at_frame tl frame ≠ .ok none) ∧
    ((∀ k ∈ tl.keyframes, frame ≤ k) →
      ∀ kmin, kmin ∈ tl.keyframes → (∀ k ∈ tl.keyframes, kmin ≤ k) →
      List.lookup kmin tl.keyframe_states = none →
      snapshot_at_frame tl frame = .error .keyErr) ∧
    ((∃ k ∈ tl.keyframes, k < frame) → (∀ k ∈ tl.keyframes, k ≤ frame) →
      ∀ kmax, kmax ∈ tl.keyframes → (∀ k ∈ tl.keyframes, k ≤ kmax) →
      List.lookup kmax tl.keyframe_states = none →
      snapshot_at_frame tl frame = .error .keyErr) ∧
    (∀ p n, p ∈ tl.keyframes → p < frame →
      (∀ k ∈ tl.keyframes, k < frame → k ≤ p) →
      n ∈ tl.keyframes → frame < n →
      (∀ k ∈ tl.keyframes, frame < k → n ≤ k) →
      (List.lookup p tl.keyframe_states = none ∨
        List.lookup n tl.keyframe_states = none) →
      snapshot_at_frame tl frame = .error .keyErr) := by
  have hne' : tl.keyframe_states.isEmpty = false :=
    List.isEmpty_eq_false.mpr hne
  refine ⟨?_, ?_, ?_, ?_⟩
  · simp only [snapshot_at_frame, hne', hmiss, Bool.false_eq_true, if_false]
    split
    all_goals repeat' split
    all_goals simp
  · intro hlb kmin hminmem hmin hmiss2
    have hhead : (dedupSort tl.keyframes).head? = some kmin :=
      head?_eq_of_sorted_min (sorted_dedupSort tl.keyframes)
        (nodup_dedupSort tl.keyframes) (mem_dedupSort.mpr hminmem)
        (fun a ha => hmin a (mem_dedupSort.mp ha))
    exact snapshot_clamp_before_missing tl frame kmin hne' hmiss hlb
      hhead hmiss2
  · intro hex hub kmax hmaxmem hmax hmiss2
    have hlast : (dedupSort tl.keyframes).getLast? = some kmax :=
      getLast?_eq_of_sorted_max (sorted_dedupSort tl.keyframes)
        (mem_dedupSort.mpr hmaxmem)
        (fun a ha => hmax a (mem_dedupSort.mp ha))
    exact snapshot_clamp_after_missing tl frame kmax hne' hmiss hex hub
      hlast hmiss2
  · intro p n hpmem hplt hpmax hnmem hngt hnmin hdangling
    have hpf : p ∈ (dedupSort tl.keyframes).filter
        (fun k => decide (k < frame)) :=
      List.mem_filter.mpr ⟨mem_dedupSort.mpr hpmem, by simpa using hplt⟩
    have hbl : ((dedupSort tl.keyframes).filter
        (fun k => decide (k < frame))).getLast? = some p := by
      apply getLast?_eq_of_sorted_max
        ((sorted_dedupSort tl.keyframes).filter _) hpf
      intro a ha
      have ha2 := List.mem_filter.mp ha
      exact hpmax a (mem_dedupSort.mp ha2.1) (by simpa using ha2.2)
    have hnf : n ∈ (dedupSort tl.keyframes).filter
        (fun k => decide (frame < k)) :=
      List.mem_filter.mpr ⟨mem_dedupSort.mpr hnmem, by simpa using hngt⟩
    have hah : ((dedupSort tl.keyframes).filter
        (fun k => decide (frame < k))).head? = some n := by
      apply head?_eq_of_sorted_min
        ((sorted_dedupSort tl.keyframes).filter _)
        ((nodup_dedupSort tl.keyframes).filter _) hnf
      intro a ha
      have ha2 := List.mem_filter.mp ha
      exact hnmin a (mem_dedupSort.mp ha2.1) (by simpa using ha2.2)
    exact snapshot_bracket_missing tl frame p n hne' hmiss hbl hah hdangling

/-- Witness for C7 (amended): keyframe 10 is listed but has no stored
state; resolving frame 20 (which clamps to keyframe 10) raises a lookup
error. -/
theorem dangling_keyframe_error_spec_witness :
    danglingClampTimeline.keyframe_states ≠ [] ∧
    List.lookup (20 : ℤ) danglingClampTimeline.keyframe_states = none ∧
    (10 : ℤ) ∈ danglingClampTimeline.keyframes ∧
    List.lookup (10 : ℤ) danglingClampTimeline.keyframe_states = none ∧
    snapshot_at_frame danglingClampTimeline 20 = .error .keyErr := by
  have hne : danglingClampTimeline.keyframe_states ≠ [] := by
    simp [danglingClampTimeline, sampleTimeline]
  have hmiss : List.lookup (20 : ℤ) danglingClampTimeline.keyframe_states =
      none := rfl
  have h10 : List.lookup (10 : ℤ) danglingClampTimeline.keyframe_states =
      none := rfl
  have hmem : (10 : ℤ) ∈ danglingClampTimeline.keyframes := by
    simp [danglingClampTimeline, sampleTimeline]
  refine ⟨hne, hmiss, hmem, h10, ?_⟩
  exact (dangling_keyframe_error_spec danglingClampTimeline 20 hne
      hmiss).2.2.1
    ⟨0, by simp [danglingClampTimeline, sampleTimeline], by norm_num⟩
    (by
      intro k hk
      rw [show danglingClampTimeline.keyframes = [0, 10] from rfl] at hk
      rcases List.mem_cons.mp hk with rfl | hk2
      · norm_num
      rcases List.mem_cons.mp hk2 with rfl | hk3
      · norm_num
      · cases hk3)
    10 hmem
    (by
      intro k hk
      rw [show danglingClampTimeline.keyframes = [0, 10] from rfl] at hk
      rcases List.mem_cons.mp hk with rfl | hk2
      · norm_num
      rcases List.mem_cons.mp hk2 with rfl | hk3
      · norm_num
      · cases hk3)
    h10

/-- C7 counterexample: keyframe 5 is listed in `keyframes` but has no
entry in `keyframe_states`, yet resolving frame 5 itself does not fail:
it silently interpolates between the remaining keyframes 0 and 10. -/
theorem dangling_keyframe_skipped_counterexample :
    (5 : ℤ) ∈ danglingBracketedTimeline.keyframes ∧
    List.lookup (5 : ℤ) danglingBracketedTimeline.keyframe_states = none ∧
    snapshot_at_frame danglingBracketedTimeline 5 =
      .ok (some (interpolate_snapshot sampleSnap0 sampleSnap10 (1 / 2))) := by
  refine ⟨by simp [danglingBracketedTimeline, sampleTimeline], rfl, ?_⟩
  norm_num [snapshot_at_frame, danglingBracketedTimeline, sampleTimeline,
    dedupSort, List.insertionSort, List.orderedInsert, List.dedup,
    List.lookup, beq_eq_decide]

lemma bind_ok_eq {α β : Type} (a : α) (f : α → Except PyErr β) :
    (Except.ok a : Except PyErr α) >>= f = f a := rfl

lemma bind_err_eq {α β : Type} (e : PyErr) (f : α → Except PyErr β) :
    (Except.error e : Except PyErr α) >>= f = .error e := rfl

lemma pure_except_eq_ok {α : Type} (a : α) :
    (pure a : Except PyErr α) = .ok a := rfl

lemma bind_pure_eq {α β : Type} (a : α) (f : α → Except PyErr β) :
    (pure a : Except PyErr α) >>= f = f a := rfl

lemma jReq_eq_of_jGet {l : List (String × Json)} {k : String} {v : Json}
    (h : jGet l k = some v) : jReq l k = .ok v := by
  simp [jReq, h]

lemma jReq_none {l : List (String × Json)} {k : String}
    (h : jGet l k = none) : jReq l k = .error .keyErr := by
  simp [jReq, h]

lemma ratTrunc_intCast (i : ℤ) : ratTrunc (i : ℚ) = i := by
  unfold ratTrunc
  split <;> simp

lemma pyInt_intCast (i : ℤ) : pyInt (.num (i : ℚ)) = .ok i := by
  simp [pyInt, ratTrunc_intCast]

lemma bind_error_exists {α β : Type} (x : Except PyErr α)
    (f : α → Except PyErr β) (h : ∀ a, ∃ e, f a = .error e) :
    ∃ e, x >>= f = .error e := by
  cases x with
  | error e => exact ⟨e, rfl⟩
  | ok a =>
    rw [bind_ok_eq]
    exact h a

/-- C10 (amended): loading a raw project dictionary that lacks the
`timeline` object, or whose timeline object lacks one of the directly
subscripted fields `fps`, `startFrame`, `endFrame` or `currentFrame`,
raises an error that aborts the load; `version`, `keyframes`,
`keyframeStates` and `loopEnabled` are silently defaulted (to 1, the
empty list, the empty map and true) when absent, so the
silently-defaulted set is larger than the documented optional fields. -/
theorem from_dict_required_fields_spec (raw traw : List (String × Json))
    (htl : jGet raw kTimeline = some (.obj traw)) :
    (jGet traw kFps = none → ∃ e, Project.fromDict (.obj raw) = .error e) ∧
    (jGet traw kStartFrame = none →
      ∃ e, Project.fromDict (.obj raw) = .error e) ∧
    (jGet traw kEndFrame = none →
      ∃ e, Project.fromDict (.obj raw) = .error e) ∧
    (jGet traw kCurrentFrame = none →
      ∃ e, Project.fromDict (.obj raw) = .error e) ∧
    (∀ raw2 : List (String × Json), jGet raw2 kTimeline = none →
      ∃ e, Project.fromDict (.obj raw2) = .error e) ∧
    (∀ p : Project, Project.fromDict (.obj raw) = .ok p →
      (jGet raw kVersion = none → p.version = 1) ∧
      (jGet traw kKeyframes = none → p.timeline.keyframes = []) ∧
      (jGet traw kKeyframeStates = none →
        p.timeline.keyframe_states = []) ∧
      (jGet traw kLoopEnabled = none → p.timeline.loop_enabled = true)) := by
  have h0 : asObj (Json.obj raw) = .ok raw := rfl
  have h1 : asObj (Json.obj traw) = .ok traw := rfl
  refine ⟨?_, ?_, ?_, ?_, ?_, ?_⟩
  · intro hfps
    simp only [Project.fromDict, h0, bind_ok_eq, jReq_eq_of_jGet htl, h1,
      jReq_none hfps, bind_err_eq]
    apply bind_error_exists
    intro entries
    apply bind_error_exists
    intro ver
    exact ⟨.keyErr, rfl⟩
  · intro hsf
    simp only [Project.fromDict, h0, bind_ok_eq, jReq_eq_of_jGet htl, h1,
      jReq_none hsf, bind_err_eq]
    apply bind_error_exists
    intro entries
    apply bind_error_exists
    intro ver
    apply bind_error_exists
    intro fps
    exact ⟨.keyErr, rfl⟩
  · intro hef
    simp only [Project.fromDict, h0, bind_ok_eq, jReq_eq_of_jGet htl, h1,
      jReq_none hef, bind_err_eq]
    apply bind_error_exists
    intro entries
    apply bind_error_exists
    intro ver
    apply bind_error_exists
    intro fps
    apply bind_error_exists
    intro sf
    exact ⟨.keyErr, rfl⟩
  · intro hcf
    simp only [Project.fromDict, h0, bind_ok_eq, jReq_eq_of_jGet htl, h1,
      jReq_none hcf, bind_err_eq]
    apply bind_error_exists
    intro entries
    apply bind_error_exists
    intro ver
    apply bind_error_exists
    intro fps
    apply bind_error_exists
    intro sf
    apply bind_error_exists
    intro ef
    exact ⟨.keyErr, rfl⟩
  · intro raw2 h
    have h02 : asObj (Json.obj raw2) = .ok raw2 := rfl
    simp only [Project.fromDict, h02, bind_ok_eq, jReq_none h, bind_err_eq]
    exact ⟨.keyErr, rfl⟩
  · intro p hp
    simp only [Project.fromDict, h0, bind_ok_eq, jReq_eq_of_jGet htl, h1]
      at hp
    cases hs : parseStates (jGet traw kKeyframeStates) with
    | error e =>
      rw [hs] at hp
      simp only [bind_err_eq] at hp
      exact Except.noConfusion hp
    | ok entries =>
    rw [hs] at hp
    simp only [bind_ok_eq] at hp
    cases hv : pyInt ((jGet raw kVersion).getD (Json.num 1)) with
    | error e =>
      rw [hv] at hp
      simp only [bind_err_eq] at hp
      exact Except.noConfusion hp
    | ok ver =>
    rw [hv] at hp
    simp only [bind_ok_eq] at hp
    cases hf : jReq traw kFps >>= pyInt with
    | error e =>
      rw [hf] at hp
      simp only [bind_err_eq] at hp
      exact Except.noConfusion hp
    | ok fps =>
    rw [hf] at hp
    simp only [bind_ok_eq] at hp
    cases hsf : jReq traw kStartFrame >>= pyInt with
    | error e =>
      rw [hsf] at hp
      simp only [bind_err_eq] at hp
      exact Except.noConfusion hp
    | ok sf =>
    rw [hsf] at hp
    simp only [bind_ok_eq] at hp
    cases hef : jReq traw kEndFrame >>= pyInt with
    | error e =>
      rw [hef] at hp
      simp only [bind_err_eq] at hp
      exact Except.noConfusion hp
    | ok ef =>
    rw [hef] at hp
    simp only [bind_ok_eq] at hp
    cases hcf : jReq traw kCurrentFrame >>= pyInt with
    | error e =>
      rw [hcf] at hp
      simp only [bind_err_eq] at hp
      exact Except.noConfusion hp
    | ok cf =>
    rw [hcf] at hp
    simp only [bind_ok_eq] at hp
    cases hk : parseKeyframes (jGet traw kKeyframes) with
    | error e =>
      rw [hk] at hp
      simp only [bind_err_eq] at hp
      exact Except.noConfusion hp
    | ok kfs =>
    rw [hk] at hp
    simp only [bind_ok_eq, pure_except_eq_ok, Except.ok.injEq] at hp
    subst hp
    refine ⟨?_, ?_, ?_, ?_⟩
    · intro hnone
      rw [hnone, Option.getD_none] at hv
      have h1v : pyInt (Json.num 1) = .ok 1 := rfl
      rw [h1v] at hv
      injection hv with hv2
      exact hv2.symm
    · intro hnone
      rw [hnone] at hk
      have hk0 : parseKeyframes none = .ok [] := rfl
      rw [hk0] at hk
      injection hk with hk2
      exact hk2.symm
    · intro hnone
      rw [hnone] at hs
      have hs0 : parseStates none = .ok [] := rfl
      rw [hs0] at hs
      injection hs with hs2
      rw [hs2.symm]
      rfl
    · intro hnone
      show pyTruthy ((jGet traw kLoopEnabled).getD (Json.bool true)) = true
      rw [hnone]
      rfl

/-- C10 counterexample: a raw project dictionary with the required
`version` field missing loads without error, the field being silently
defaulted to 1, contradicting the claim that a missing required field
always raises. -/
theorem from_dict_missing_version_counterexample :
    jGet missingVersionRaw kVersion = none ∧
    Project.fromDict (.obj missingVersionRaw) = .ok emptyKeyframesProject ∧
    emptyKeyframesProject.version = 1 := by
  refine ⟨rfl, ?_, rfl⟩
  rfl

/-- Witness for C10 (amended): a concrete raw dictionary whose timeline
lacks `fps` fails to load, and one lacking `version`, `keyframes`,
`keyframeStates` and `loopEnabled` loads with all four defaulted. -/
theorem from_dict_required_fields_spec_witness :
    (jGet missingFpsRaw kTimeline = some (.obj missingFpsTimelineFields) ∧
      jGet missingFpsTimelineFields kFps = none ∧
      ∃ e, Project.fromDict (.obj missingFpsRaw) = .error e) ∧
    (jGet bareRaw kTimeline = some (.obj bareTimelineFields) ∧
      Project.fromDict (.obj bareRaw) = .ok emptyKeyframesProject ∧
      jGet bareRaw kVersion = none ∧
      jGet bareTimelineFields kKeyframes = none ∧
      jGet bareTimelineFields kKeyframeStates = none ∧
      jGet bareTimelineFields kLoopEnabled = none ∧
      emptyKeyframesProject.version = 1 ∧
      emptyKeyframesProject.timeline.keyframes = [] ∧
      emptyKeyframesProject.timeline.keyframe_states = [] ∧
      emptyKeyframesProject.timeline.loop_enabled = true) := by
  have hdef := (from_dict_required_fields_spec bareRaw bareTimelineFields
    rfl).2.2.2.2.2 emptyKeyframesProject rfl
  exact ⟨⟨rfl, rfl,
      (from_dict_required_fields_spec missingFpsRaw missingFpsTimelineFields
        rfl).1 rfl⟩,
    rfl, rfl, rfl, rfl, rfl, rfl, hdef.1 rfl, hdef.2.1 rfl, hdef.2.2.1 rfl,
    hdef.2.2.2 rfl⟩

lemma foldl_dictInsert_eq_append {α β : Type} [BEq α] [LawfulBEq α]
    (l : List (α × β)) :
    ∀ acc : List (α × β), NodupKeys (acc ++ l) →
      l.foldl (fun acc p => dictInsert acc p.1 p.2) acc = acc ++ l := by
  induction l with
  | nil =>
    intro acc _
    simp
  | cons hd t ih =>
    intro acc hnd
    have hknotin : ∀ p ∈ acc, (p.1 == hd.1) = false := by
      intro p hp
      have : (acc.map Prod.fst ++ hd.1 :: t.map Prod.fst).Nodup := by
        simpa [NodupKeys] using hnd
      have hne : p.1 ≠ hd.1 := by
        intro hc
        have h1 : p.1 ∈ acc.map Prod.fst := List.mem_map_of_mem Prod.fst hp
        have := List.disjoint_of_nodup_append this h1
        simp [hc] at this
      simp [hne]
    have hins : dictInsert acc hd.1 hd.2 = acc ++ [(hd.1, hd.2)] := by
      unfold dictInsert
      have : acc.any (fun p => p.1 == hd.1) = false := by
        rw [List.any_eq_false]
        intro p hp
        simp [hknotin p hp]
      simp [this]
    rw [List.foldl_cons, hins, ih (acc ++ [(hd.1, hd.2)])]
    · simp
    · simpa [NodupKeys] using hnd

lemma listToDict_eq_self {α β : Type} [BEq α] [LawfulBEq α]
    {l : List (α × β)} (h : NodupKeys l) : listToDict l = l := by
  unfold listToDict
  have := foldl_dictInsert_eq_append l [] (by simpa using h)
  simpa using this

lemma attachment_roundtrip (a : Attachment) :
    Attachment.fromDict (.obj [(kPantinId, .num (a.pantin_id : ℚ)),
      (kMemberId, .str a.member_id), (kOffsetX, .num a.offset_x),
      (kOffsetY, .num a.offset_y)]) = .ok a := by
  have h : Attachment.fromDict (.obj [(kPantinId, .num (a.pantin_id : ℚ)),
      (kMemberId, .str a.member_id), (kOffsetX, .num a.offset_x),
      (kOffsetY, .num a.offset_y)]) =
      .ok { pantin_id := ratTrunc ((a.pantin_id : ℚ)),
            member_id := a.member_id,
            offset_x := a.offset_x, offset_y := a.offset_y } := rfl
  rw [h, ratTrunc_intCast]

lemma mapM_member_rotations (l : List (String × ℚ)) :
    List.mapM parseMemberRotation (l.map (fun p => (p.1, Json.num p.2))) =
      .ok l := by
  induction l with
  | nil => rfl
  | cons hd t ih =>
    rw [List.map_cons, List.mapM_cons]
    have hp : parseMemberRotation (hd.1, Json.num hd.2) = .ok hd := rfl
    rw [hp, bind_ok_eq, ih, bind_ok_eq]
    rfl

lemma map_pyStr_str (l : List (String × String)) :
    (l.map (fun p => (p.1, Json.str p.2))).map (fun p => (p.1, pyStr p.2)) =
      l := by
  induction l with
  | nil => rfl
  | cons hd t ih =>
    rw [List.map_cons, List.map_cons, ih]
    rfl

lemma item_roundtrip (it : SceneItem) (h1 : NodupKeys it.variants)
    (h2 : NodupKeys it.member_rotations) :
    SceneItem.fromDict (SceneItem.toDict it) = .ok it := by
  obtain ⟨iid, kind, label, asset, x, y, sc, rot, w, hgt, vars, mrs, att⟩ := it
  simp only at h1 h2
  rcases att with _ | a <;> rcases vars with _ | ⟨v, vt⟩ <;>
    rcases mrs with _ | ⟨m, mt⟩
  · have hskel : SceneItem.fromDict (SceneItem.toDict
        ⟨iid, kind, label, asset, x, y, sc, rot, w, hgt, [], [], none⟩) =
        .ok
          { item_id := ratTrunc ((iid : ℚ)), kind := kind, label := label,
            asset_path := asset, x := x, y := y, scale := sc,
            rotation := rot, width := w, height := hgt,
            variants := ([] : List (String × String)),
            member_rotations := ([] : List (String × ℚ)),
            attachment := (none : Option Attachment) } := rfl
    rw [hskel]
    simp only [bind_ok_eq, bind_pure_eq, pure_except_eq_ok,
      mapM_member_rotations, map_pyStr_str, listToDict_eq_self h1,
      listToDict_eq_self h2, ratTrunc_intCast, Except.ok.injEq,
      SceneItem.mk.injEq, Attachment.mk.injEq, and_self, and_true, true_and]
  · have hskel : SceneItem.fromDict (SceneItem.toDict
        ⟨iid, kind, label, asset, x, y, sc, rot, w, hgt, [], (m :: mt), none⟩) =
        ((List.mapM parseMemberRotation
            ((m :: mt).map (fun p => (p.1, Json.num p.2)))) >>=
          fun entries => pure (listToDict entries)) >>=
          fun member_rotations =>
            pure
              { item_id := ratTrunc ((iid : ℚ)), kind := kind, label := label,
                asset_path := asset, x := x, y := y, scale := sc,
                rotation := rot, width := w, height := hgt,
                variants := ([] : List (String × String)),
                member_rotations := member_rotations,
                attachment := (none : Option Attachment) } := rfl
    rw [hskel]
    simp only [bind_ok_eq, bind_pure_eq, pure_except_eq_ok,
      mapM_member_rotations, map_pyStr_str, listToDict_eq_self h1,
      listToDict_eq_self h2, ratTrunc_intCast, Except.ok.injEq,
      SceneItem.mk.injEq, Attachment.mk.injEq, and_self, and_true, true_and]
  · have hskel : SceneItem.fromDict (SceneItem.toDict
        ⟨iid, kind, label, asset, x, y, sc, rot, w, hgt, (v :: vt), [], none⟩) =
        .ok
          { item_id := ratTrunc ((iid : ℚ)), kind := kind, label := label,
            asset_path := asset, x := x, y := y, scale := sc,
            rotation := rot, width := w, height := hgt,
            variants := listToDict (((v :: vt).map (fun p => (p.1, Json.str p.2))).map
              (fun p => (p.1, pyStr p.2))),
            member_rotations := ([] : List (String × ℚ)),
            attachment := (none : Option Attachment) } := rfl
    rw [hskel]
    simp only [bind_ok_eq, bind_pure_eq, pure_except_eq_ok,
      mapM_member_rotations, map_pyStr_str, listToDict_eq_self h1,
      listToDict_eq_self h2, ratTrunc_intCast, Except.ok.injEq,
      SceneItem.mk.injEq, Attachment.mk.injEq, and_self, and_true, true_and]
  · have hskel : SceneItem.fromDict (SceneItem.toDict
        ⟨iid, kind, label, asset, x, y, sc, rot, w, hgt, (v :: vt), (m :: mt), none⟩) =
        ((List.mapM parseMemberRotation
            ((m :: mt).map (fun p => (p.1, Json.num p.2)))) >>=
          fun entries => pure (listToDict entries)) >>=
          fun member_rotations =>
            pure
              { item_id := ratTrunc ((iid : ℚ)), kind := kind, label := label,
                asset_path := asset, x := x, y := y, scale := sc,
                rotation := rot, width := w, height := hgt,
                variants := listToDict (((v :: vt).map (fun p => (p.1, Json.str p.2))).map
                  (fun p => (p.1, pyStr p.2))),
                member_rotations := member_rotations,
                attachment := (none : Option Attachment) } := rfl
    rw [hskel]
    simp only [bind_ok_eq, bind_pure_eq, pure_except_eq_ok,
      mapM_member_rotations, map_pyStr_str, listToDict_eq_self h1,
      listToDict_eq_self h2, ratTrunc_intCast, Except.ok.injEq,
      SceneItem.mk.injEq, Attachment.mk.injEq, and_self, and_true, true_and]
  · have hskel : SceneItem.fromDict (SceneItem.toDict
        ⟨iid, kind, label, asset, x, y, sc, rot, w, hgt, [], [], some a⟩) =
        .ok
          { item_id := ratTrunc ((iid : ℚ)), kind := kind, label := label,
            asset_path := asset, x := x, y := y, scale := sc,
            rotation := rot, width := w, height := hgt,
            variants := ([] : List (String × String)),
            member_rotations := ([] : List (String × ℚ)),
            attachment := some { pantin_id := ratTrunc ((a.pantin_id : ℚ)),
                                            member_id := a.member_id,
                                            offset_x := a.offset_x,
                                            offset_y := a.offset_y } } := rfl
    rw [hskel]
    simp only [bind_ok_eq, bind_pure_eq, pure_except_eq_ok,
      mapM_member_rotations, map_pyStr_str, listToDict_eq_self h1,
      listToDict_eq_self h2, ratTrunc_intCast, Except.ok.injEq,
      SceneItem.mk.injEq, Attachment.mk.injEq, and_self, and_true, true_and]
  · have hskel : SceneItem.fromDict (SceneItem.toDict
        ⟨iid, kind, label, asset, x, y, sc, rot, w, hgt, [], (m :: mt), some a⟩) =
        ((List.mapM parseMemberRotation
            ((m :: mt).map (fun p => (p.1, Json.num p.2)))) >>=
          fun entries => pure (listToDict entries)) >>=
          fun member_rotations =>
            pure
              { item_id := ratTrunc ((iid : ℚ)), kind := kind, label := label,
                asset_path := asset, x := x, y := y, scale := sc,
                rotation := rot, width := w, height := hgt,
                variants := ([] : List (String × String)),
                member_rotations := member_rotations,
                attachment := some { pantin_id := ratTrunc ((a.pantin_id : ℚ)),
                                            member_id := a.member_id,
                                            offset_x := a.offset_x,
                                            offset_y := a.offset_y } } := rfl
    rw [hskel]
    simp only [bind_ok_eq, bind_pure_eq, pure_except_eq_ok,
      mapM_member_rotations, map_pyStr_str, listToDict_eq_self h1,
      listToDict_eq_self h2, ratTrunc_intCast, Except.ok.injEq,
      SceneItem.mk.injEq, Attachment.mk.injEq, and_self, and_true, true_and]
  · have hskel : SceneItem.fromDict (SceneItem.toDict
        ⟨iid, kind, label, asset, x, y, sc, rot, w, hgt, (v :: vt), [], some a⟩) =
        .ok
          { item_id := ratTrunc ((iid : ℚ)), kind := kind, label := label,
            asset_path := asset, x := x, y := y, scale := sc,
            rotation := rot, width := w, height := hgt,
            variants := listToDict (((v :: vt).map (fun p => (p.1, Json.str p.2))).map
              (fun p => (p.1, pyStr p.2))),
            member_rotations := ([] : List (String × ℚ)),
            attachment := some { pantin_id := ratTrunc ((a.pantin_id : ℚ)),
                                            member_id := a.member_id,
                                            offset_x := a.offset_x,
                                            offset_y := a.offset_y } } := rfl
    rw [hskel]
    simp only [bind_ok_eq, bind_pure_eq, pure_except_eq_ok,
      mapM_member_rotations, map_pyStr_str, listToDict_eq_self h1,
      listToDict_eq_self h2, ratTrunc_intCast, Except.ok.injEq,
      SceneItem.mk.injEq, Attachment.mk.injEq, and_self, and_true, true_and]
  · have hskel : SceneItem.fromDict (SceneItem.toDict
        ⟨iid, kind, label, asset, x, y, sc, rot, w, hgt, (v :: vt), (m :: mt), some a⟩) =
        ((List.mapM parseMemberRotation
            ((m :: mt).map (fun p => (p.1, Json.num p.2)))) >>=
          fun entries => pure (listToDict entries)) >>=
          fun member_rotations =>
            pure
              { item_id := ratTrunc ((iid : ℚ)), kind := kind, label := label,
                asset_path := asset, x := x, y := y, scale := sc,
                rotation := rot, width := w, height := hgt,
                variants := listToDict (((v :: vt).map (fun p => (p.1, Json.str p.2))).map
                  (fun p => (p.1, pyStr p.2))),
                member_rotations := member_rotations,
                attachment := some { pantin_id := ratTrunc ((a.pantin_id : ℚ)),
                                            member_id := a.member_id,
                                            offset_x := a.offset_x,
                                            offset_y := a.offset_y } } := rfl
    rw [hskel]
    simp only [bind_ok_eq, bind_pure_eq, pure_except_eq_ok,
      mapM_member_rotations, map_pyStr_str, listToDict_eq_self h1,
      listToDict_eq_self h2, ratTrunc_intCast, Except.ok.injEq,
      SceneItem.mk.injEq, Attachment.mk.injEq, and_self, and_true, true_and]

lemma optInt_intCast (i : ℤ) :
    optInt (some (.num (i : ℚ))) = .ok (some i) := by
  simp [optInt, Rat.den_intCast, Rat.num_intCast]

lemma layer_roundtrip (l : Layer) :
    Layer.fromDict (Layer.toDict l) = .ok l := by
  have hskel : Layer.fromDict (Layer.toDict l) =
      .ok { layer_id := ratTrunc ((l.layer_id : ℚ)), name := l.name,
            visible := l.visible, locked := l.locked, kind := l.kind } := rfl
  rw [hskel, ratTrunc_intCast]

lemma mapM_layers (ls : List Layer) :
    List.mapM Layer.fromDict (ls.map Layer.toDict) = .ok ls := by
  induction ls with
  | nil => rfl
  | cons hd t ih =>
    rw [List.map_cons, List.mapM_cons, layer_roundtrip, bind_ok_eq, ih,
      bind_ok_eq]
    rfl

lemma mapM_items (items : List SceneItem) (h : ∀ it ∈ items, ItemWF it) :
    List.mapM SceneItem.fromDict (items.map SceneItem.toDict) = .ok items := by
  induction items with
  | nil => rfl
  | cons hd t ih =>
    rw [List.map_cons, List.mapM_cons,
      item_roundtrip hd (h hd (List.mem_cons_self hd t)).1
        (h hd (List.mem_cons_self hd t)).2,
      bind_ok_eq, ih (fun it hit => h it (List.mem_cons_of_mem hd hit)),
      bind_ok_eq]
    rfl

lemma jGet_scene2_path (x y : Json) :
    jGet [(kBackgroundPath, x), (kItems, y)] kBackgroundPath = some x := rfl

lemma jGet_scene2_items (x y : Json) :
    jGet [(kBackgroundPath, x), (kItems, y)] kItems = some y := rfl

lemma jGet_scene2_size (x y : Json) :
    jGet [(kBackgroundPath, x), (kItems, y)] kBackgroundSize = none := rfl

lemma jGet_scene3_path (x y z : Json) :
    jGet [(kBackgroundPath, x), (kItems, y), (kBackgroundSize, z)]
      kBackgroundPath = some x := rfl

lemma jGet_scene3_items (x y z : Json) :
    jGet [(kBackgroundPath, x), (kItems, y), (kBackgroundSize, z)]
      kItems = some y := rfl

lemma jGet_scene3_size (x y z : Json) :
    jGet [(kBackgroundPath, x), (kItems, y), (kBackgroundSize, z)]
      kBackgroundSize = some z := rfl

lemma jGet_wh_width (x y : Json) :
    jGet [(kWidth, x), (kHeight, y)] kWidth = some x := rfl

lemma jGet_wh_height (x y : Json) :
    jGet [(kWidth, x), (kHeight, y)] kHeight = some y := rfl

lemma scene_roundtrip (sc : SceneSnapshot)
    (h : ∀ it ∈ sc.items, ItemWF it) :
    SceneSnapshot.fromDict (SceneSnapshot.toDict sc) = .ok sc := by
  obtain ⟨bp, bs, items⟩ := sc
  simp only at h
  rcases bp with _ | p <;> rcases bs with _ | ⟨bw, bh⟩ <;>
    simp only [SceneSnapshot.toDict, SceneSnapshot.fromDict, asObj,
      List.cons_append, List.nil_append, jGet_scene2_path, jGet_scene2_items,
      jGet_scene2_size, jGet_scene3_path, jGet_scene3_items, jGet_scene3_size,
      jGet_wh_width, jGet_wh_height, jReq, parseBackgroundSize, parseItems,
      optStr, pyTruthy, pyInt, List.isEmpty_cons, Bool.not_false,
      if_true, if_false, mapM_items items h, ratTrunc_intCast, bind_ok_eq,
      bind_pure_eq, pure_except_eq_ok, Except.ok.injEq,
      SceneSnapshot.mk.injEq, and_self, and_true, true_and]

lemma optInt_null : optInt (some .null) = .ok none := rfl

lemma jGet_snap_scene (x y : Json) :
    jGet [(kScene, x), (kLayers, y)] kScene = some x := rfl

lemma jGet_snap_layers (x y : Json) :
    jGet [(kScene, x), (kLayers, y)] kLayers = some y := rfl

lemma jGet_layers_items (x y : Json) :
    jGet [(kItems, x), (kActiveLayerId, y)] kItems = some x := rfl

lemma jGet_layers_active (x y : Json) :
    jGet [(kItems, x), (kActiveLayerId, y)] kActiveLayerId = some y := rfl

lemma snapshot_roundtrip (s : KeyframeSnapshot) (h : SnapshotWF s) :
    KeyframeSnapshot.fromDict (KeyframeSnapshot.toDict s) = .ok s := by
  obtain ⟨scene, layers, active⟩ := s
  have hsc : ∀ it ∈ scene.items, ItemWF it := h
  rcases active with _ | aid <;>
    simp only [KeyframeSnapshot.toDict, KeyframeSnapshot.fromDict, asObj,
      jGet_snap_scene, jGet_snap_layers, jGet_layers_items,
      jGet_layers_active, parseLayersRaw, parseLayers, optInt_null,
      optInt_intCast, Option.getD_some, scene_roundtrip scene hsc,
      mapM_layers, bind_ok_eq, bind_pure_eq, pure_except_eq_ok,
      Except.ok.injEq, KeyframeSnapshot.mk.injEq, and_self, and_true,
      true_and]

lemma mapM_states (l : List (ℤ × KeyframeSnapshot))
    (hwf : ∀ e ∈ l, SnapshotWF e.2)
    (hparse : ∀ e ∈ l, pyIntOfString (intToStr e.1) = some e.1) :
    List.mapM parseStateEntry
      (l.map (fun e => (intToStr e.1, KeyframeSnapshot.toDict e.2))) =
      .ok l := by
  induction l with
  | nil => rfl
  | cons hd t ih =>
    have hmem := List.mem_cons_self hd t
    have h1 : parseStateEntry
        (intToStr hd.1, KeyframeSnapshot.toDict hd.2) = .ok hd := by
      simp only [parseStateEntry, hparse hd hmem,
        snapshot_roundtrip hd.2 (hwf hd hmem), bind_ok_eq, bind_pure_eq,
        pure_except_eq_ok]
    rw [List.map_cons, List.mapM_cons, h1, bind_ok_eq,
      ih (fun e he => hwf e (List.mem_cons_of_mem hd he))
        (fun e he => hparse e (List.mem_cons_of_mem hd he)),
      bind_ok_eq]
    rfl

lemma mapM_keyframes (l : List ℤ) :
    List.mapM pyInt (l.map (fun (k : ℤ) => Json.num (k : ℚ))) = .ok l := by
  induction l with
  | nil => rfl
  | cons hd t ih =>
    rw [List.map_cons, List.mapM_cons, pyInt_intCast, bind_ok_eq, ih,
      bind_ok_eq]
    rfl

lemma jGet_proj_version (x y : Json) :
    jGet [(kVersion, x), (kTimeline, y)] kVersion = some x := rfl

lemma jGet_proj_timeline (x y : Json) :
    jGet [(kVersion, x), (kTimeline, y)] kTimeline = some y := rfl

lemma jGet_tl_fps (a b c d e f g : Json) :
    jGet [(kFps, a), (kStartFrame, b), (kEndFrame, c), (kCurrentFrame, d),
      (kKeyframes, e), (kKeyframeStates, f), (kLoopEnabled, g)] kFps =
      some a := rfl

lemma jGet_tl_start (a b c d e f g : Json) :
    jGet [(kFps, a), (kStartFrame, b), (kEndFrame, c), (kCurrentFrame, d),
      (kKeyframes, e), (kKeyframeStates, f), (kLoopEnabled, g)]
      kStartFrame = some b := rfl

lemma jGet_tl_end (a b c d e f g : Json) :
    jGet [(kFps, a), (kStartFrame, b), (kEndFrame, c), (kCurrentFrame, d),
      (kKeyframes, e), (kKeyframeStates, f), (kLoopEnabled, g)] kEndFrame =
      some c := rfl

lemma jGet_tl_current (a b c d e f g : Json) :
    jGet [(kFps, a), (kStartFrame, b), (kEndFrame, c), (kCurrentFrame, d),
      (kKeyframes, e), (kKeyframeStates, f), (kLoopEnabled, g)]
      kCurrentFrame = some d := rfl

lemma jGet_tl_keyframes (a b c d e f g : Json) :
    jGet [(kFps, a), (kStartFrame, b), (kEndFrame, c), (kCurrentFrame, d),
      (kKeyframes, e), (kKeyframeStates, f), (kLoopEnabled, g)]
      kKeyframes = some e := rfl

lemma jGet_tl_states (a b c d e f g : Json) :
    jGet [(kFps, a), (kStartFrame, b), (kEndFrame, c), (kCurrentFrame, d),
      (kKeyframes, e), (kKeyframeStates, f), (kLoopEnabled, g)]
      kKeyframeStates = some f := rfl

lemma jGet_tl_loop (a b c d e f g : Json) :
    jGet [(kFps, a), (kStartFrame, b), (kEndFrame, c), (kCurrentFrame, d),
      (kKeyframes, e), (kKeyframeStates, f), (kLoopEnabled, g)]
      kLoopEnabled = some g := rfl

lemma project_roundtrip (p : Project) (h : ProjectWF p) :
    Project.fromDict (Project.toDict p) = .ok p := by
  obtain ⟨hsorted, hwf, hparse⟩ := h
  have hsorted2 : p.timeline.keyframe_states.Sorted
      (fun a b => a.1 ≤ b.1) := by
    have := (List.pairwise_map.mp hsorted).imp
      (fun hab => le_of_lt hab)
    exact this
  have hsort_eq : List.insertionSort (fun a b => a.1 ≤ b.1)
      p.timeline.keyframe_states = p.timeline.keyframe_states :=
    List.Sorted.insertionSort_eq hsorted2
  have hnodup : NodupKeys p.timeline.keyframe_states := by
    unfold NodupKeys
    exact hsorted.imp (fun hab => ne_of_lt hab)
  obtain ⟨ver, ⟨fps, sf, ef, cf, kfs, states, loop⟩⟩ := p
  simp only at hsorted hwf hparse hsort_eq hnodup
  simp only [Project.toDict, Project.fromDict, asObj, hsort_eq,
    jGet_proj_version, jGet_proj_timeline, jGet_tl_fps, jGet_tl_start,
    jGet_tl_end, jGet_tl_current, jGet_tl_keyframes, jGet_tl_states,
    jGet_tl_loop, jReq, parseStates, parseKeyframes, Option.getD_some,
    mapM_states states hwf hparse, mapM_keyframes, pyInt_intCast,
    pyTruthy, listToDict_eq_self hnodup, bind_ok_eq, bind_pure_eq,
    pure_except_eq_ok, Except.ok.injEq, Project.mk.injEq,
    Timeline.mk.injEq, and_self, and_true, true_and]

/-- C9 (amended): for every project in canonical serialized form
(well-formed per the section 6 schema, optional collections present
exactly when non-empty, `loopEnabled` explicitly present, keyframe state
keys canonical sorted decimal strings — i.e. exactly the JSON that
`to_dict` emits), `to_dict (from_dict x) == x`; `from_dict` accepts an
`x` that omits `loopEnabled`, but `to_dict` always emits it, so such an
`x` fails the round trip (see the counterexample). -/
theorem roundtrip_canonical_spec (p : Project) (h : ProjectWF p) :
    Project.fromDict (Project.toDict p) = .ok p ∧
    (Project.fromDict (Project.toDict p)).map Project.toDict =
      .ok (Project.toDict p) := by
  have h1 := project_roundtrip p h
  refine ⟨h1, ?_⟩
  rw [h1]
  rfl

/-- Witness for C9 (amended) at the repository test project. -/
theorem roundtrip_canonical_spec_witness :
    ProjectWF sampleProject ∧
    Project.fromDict (Project.toDict sampleProject) = .ok sampleProject ∧
    (Project.fromDict (Project.toDict sampleProject)).map Project.toDict =
      .ok (Project.toDict sampleProject) := by
  have h : ProjectWF sampleProject := by
    unfold ProjectWF SnapshotWF ItemWF NodupKeys
    exact ⟨by decide, by decide, by decide⟩
  exact ⟨h, (roundtrip_canonical_spec sampleProject h).1,
    (roundtrip_canonical_spec sampleProject h).2⟩

/-- C9 counterexample: a well-formed project JSON that omits the
optional `loopEnabled` field (and omits all empty optional collections)
loads fine, but `to_dict` always emits `loopEnabled`, so the round trip
is not the identity: the result differs from the input under Python
dict equality. -/
theorem roundtrip_loop_enabled_counterexample :
    Project.fromDict noLoopRaw = .ok emptyKeyframesProject ∧
    pyJsonEq (Project.toDict emptyKeyframesProject) noLoopRaw = false ∧
    jGet noLoopTimelineFields kLoopEnabled = none ∧
    jGet emptyTimelineJsonFields kLoopEnabled = some (.bool true) ∧
    Project.toDict emptyKeyframesProject =
      .obj [(kVersion, .num 1), (kTimeline, .obj emptyTimelineJsonFields)] := by
  refine ⟨rfl, ?_, rfl, rfl, rfl⟩
  decide
